import Mathlib

/-!
# tunneldns: a DNS-to-DoH forwarding proxy

A shallow embedding of the `tunneldns` package (`https_proxy.go`,
`https_upstream.go`, `tunnel.go`) and of the enum `ExistingTunnelPolicy` of
`tunnelrpc.capnp.go`.

* The result `(*dns.Msg, error)` of the interface method `Exchange` is a pair
  of options (`none` is the Go `nil`), since an implementation may return any
  combination. A function of the package that only ever returns `(nil, err)`
  with a non-nil `err`, or `(value, nil)`, returns an `Except`.
* Calls into collaborators that the package does not implement (the DNS
  codec, `net/url`, `net/http`, the CoreDNS server) are fields of `World`.
* The operations of the resolver, the exchanger and the listener return, next
  to their Go result, the list of observable calls they made, in program
  order. `Run` returns how it ends.
* The service loop goroutines and the caller of `Stop` are a transition
  system (`Sys.step`); `l.wg.Wait()` is the action that is enabled only when
  the counter is zero.
-/

namespace tunneldns

/-! ## Data model -/

/-- A Go `error` value, observed through its `Error()` text. -/
structure GoError where
  Error : String
deriving DecidableEq, Repr

/-- Raw bytes (`[]byte`); the `nil` slice is the empty list. -/
abbrev Bytes := List Nat

/-- One entry of the question section of `dns.Msg`. -/
structure Question where
  Name : String
  Qtype : Nat
  Qclass : Nat
deriving DecidableEq, Repr

/-- The message type `dns.Msg`: the header fields of `dns.MsgHdr`, the
compression flag and the four sections. Resource records are kept in wire
form. -/
structure Msg where
  Id : Nat
  Response : Bool
  Opcode : Int
  Authoritative : Bool
  Truncated : Bool
  RecursionDesired : Bool
  RecursionAvailable : Bool
  Zero : Bool
  AuthenticatedData : Bool
  CheckingDisabled : Bool
  Rcode : Int
  Compress : Bool
  Question : List Question
  Answer : List Bytes
  Ns : List Bytes
  Extra : List Bytes
deriving DecidableEq, Repr

/-- The `dns.ResponseWriter` of one query, observed through the result of
its `WriteMsg` (the argument is a `*dns.Msg`, `none` being `nil`). -/
structure ResponseWriter where
  WriteMsg : Option Msg → Option GoError

/-- The value `request.Request{W: w, Req: r}`. -/
structure Request where
  W : ResponseWriter
  Req : Msg

end tunneldns

namespace dns

/-- The response code SERVFAIL of the DNS library. -/
def RcodeServerFailure : Int := 2

end dns

namespace fmt

open tunneldns

/-- The verb `%s` applied to an `error` operand: the `Error()` text, or the
marker that `fmt` prints for a nil interface value. -/
def verbS : Option GoError → String
  | some e => e.Error
  | none => "%!s(<nil>)"

/-- The call `fmt.Errorf("%s: %s", a, b)` on two `error` operands. -/
def Errorf_s_s (a b : Option GoError) : GoError :=
  ⟨verbS a ++ ": " ++ verbS b⟩

end fmt

namespace tunneldns

/-! ## https_proxy.go -/

/-- The package variable `errUnreachable`. -/
def errUnreachable : GoError := ⟨"unreachable backend"⟩

/-- The struct `ProxyPlugin`, for upstreams of type `U`. The interface
`Upstream` is the function `exch : U → Request → Option Msg × Option GoError`
that the operations below take: the `(reply, error)` pair of `Exchange`. -/
structure ProxyPlugin (U : Type) where
  Upstreams : List U

/-- What `ServeDNS` does that its caller can observe: a call of `Exchange` on
the upstream at a position of the chain, and a `WriteMsg` on the response
writer. -/
inductive ProxyEvent where
  | exchange (idx : Nat)
  | writeMsg (reply : Option Msg)
deriving DecidableEq, Repr

/-- The `for _, upstream := range p.Upstreams` loop of `ServeDNS` together
with the statement after it; `idx` is the position of the head of the
remaining chain, `reply` and `backendErr` are the loop variables. -/
def ProxyPlugin.serveLoop {U : Type} (exch : U → Request → Option Msg × Option GoError)
    (state : Request) :
    List U → Nat → Option Msg → Option GoError → (Int × Option GoError) × List ProxyEvent
  | [], _, _, backendErr =>
    ((dns.RcodeServerFailure, some (fmt.Errorf_s_s (some errUnreachable) backendErr)), [])
  | upstream :: rest, idx, _, _ =>
    match exch upstream state with
    | (reply, none) => ((0, none), [ProxyEvent.exchange idx, ProxyEvent.writeMsg reply])
    | (reply, some e) =>
      let r := ProxyPlugin.serveLoop exch state rest (idx + 1) reply (some e)
      (r.1, ProxyEvent.exchange idx :: r.2)

/-- The method `ProxyPlugin.ServeDNS`: the returned `(int, error)` and the
calls made. -/
def ProxyPlugin.ServeDNS {U : Type} (exch : U → Request → Option Msg × Option GoError)
    (p : ProxyPlugin U) (w : ResponseWriter) (r : Msg) :
    (Int × Option GoError) × List ProxyEvent :=
  let state : Request := { W := w, Req := r }
  ProxyPlugin.serveLoop exch state p.Upstreams 0 none none

/-- The method `ProxyPlugin.Name`. -/
def ProxyPlugin.Name {U : Type} (_p : ProxyPlugin U) : String := "proxy"


/-! ## https_upstream.go -/

end tunneldns

namespace time

/-- The constant `time.Second`, a `time.Duration` (nanoseconds, `int64`). -/
def Second : Int := 1000000000

end time

namespace tunneldns

/-- The constant `defaultTimeout = 5 * time.Second`. -/
def defaultTimeout : Int := 5 * time.Second

/-- A parsed `*url.URL`, observed through the two methods the package calls
on it: `raw` is the result of `String()`, `host` the result of
`Hostname()`. -/
structure URL where
  raw : String
  host : String
deriving DecidableEq, Repr

/-- The method `(*url.URL).Hostname`. -/
def URL.Hostname (u : URL) : String := u.host

/-- The method `(*url.URL).String`. -/
def URL.String (u : URL) : String := u.raw

/-- The fields of `tls.Config` that the package sets. -/
structure TLSConfig where
  ServerName : String
deriving DecidableEq, Repr

/-- The fields of `http.Transport` that the package sets. -/
structure Transport where
  TLSClientConfig : TLSConfig
deriving DecidableEq, Repr

/-- The fields of `http.Client` that the package sets; `Timeout` is a
`time.Duration`. -/
structure Client where
  Timeout : Int
  Transport : Transport
deriving DecidableEq, Repr

/-- The struct `UpstreamHTTPS`. -/
structure UpstreamHTTPS where
  client : Client
  endpoint : URL
  addresses : List String
deriving DecidableEq, Repr

/-- An `*http.Request`: method, target URL text, body bytes, header entries
in the order they were added, and the `Host` field. -/
structure HTTPRequest where
  Method : String
  URL : String
  Body : Bytes
  Header : List (String × String)
  Host : String
deriving DecidableEq, Repr

/-- The method `http.Header.Add`. -/
def HTTPRequest.HeaderAdd (req : HTTPRequest) (key value : String) : HTTPRequest :=
  { req with Header := req.Header ++ [(key, value)] }

/-- The method `http.Header.Get`: the first value stored under the key, or
the empty string. -/
def HTTPRequest.HeaderGet (req : HTTPRequest) (key : String) : String :=
  match req.Header.find? (fun kv => kv.1 == key) with
  | some kv => kv.2
  | none => ""

/-- An `*http.Response`: the status code and what `ioutil.ReadAll` gives on
its body. -/
structure HTTPResponse where
  StatusCode : Int
  Body : Except GoError Bytes

/-! ## tunnel.go: data -/

/-- The handlers that `CreateListener` chains: the proxy plugin, the cache
stage with its `Next`, and the wrapper that `NewMetricsPlugin` puts around a
handler. -/
inductive Handler where
  | proxy (p : ProxyPlugin UpstreamHTTPS)
  | cache (Next : Handler)
  | metrics (Next : Handler)

/-- The fields of `dnsserver.Config` that `createConfig` sets. `Plugin` holds,
for each function given to `AddPlugin`, the handler that function returns. -/
structure Config where
  Zone : String
  Transport : String
  ListenHosts : List String
  Port : String
  Plugin : List Handler

/-- A `*dnsserver.Server`, observed through `Address()`. -/
structure Server where
  Address : String
deriving DecidableEq, Repr

/-- The UDP socket that `ListenPacket` returns. -/
structure PacketConn where
  fd : Nat
deriving DecidableEq, Repr

/-- The TCP listener that `Listen` returns. -/
structure NetListener where
  fd : Nat
deriving DecidableEq, Repr

/-- The struct `Listener`; `wg` is the counter of the `sync.WaitGroup`. -/
structure Listener where
  server : Server
  wg : Int
deriving DecidableEq, Repr

/-! ## Collaborators -/

/-- The collaborators of the package. A library call whose Go result is
`(value, error)` is an `Except`: the package reads the value only after it
has found the error nil. -/
structure World where
  /-- The function `url.Parse`. -/
  urlParse : String → Except GoError URL
  /-- The method `(*dns.Msg).Pack`. -/
  Pack : Msg → Except GoError Bytes
  /-- The method `(*dns.Msg).Unpack` on a fresh message. -/
  Unpack : Bytes → Except GoError Msg
  /-- The error, if any, of `http.NewRequest` for a method and a URL text. -/
  newRequestErr : String → String → Option GoError
  /-- The `Host` that `http.NewRequest` derives from a URL text. -/
  requestHost : String → String
  /-- The method `(*http.Client).Do`. -/
  Do : Client → HTTPRequest → Except GoError HTTPResponse
  /-- The function `dnsserver.NewServer`. -/
  NewServer : String → List Config → Except GoError Server
  /-- The method `(*dnsserver.Server).ListenPacket`. -/
  ListenPacket : Server → Except GoError PacketConn
  /-- The method `(*dnsserver.Server).Listen`. -/
  Listen : Server → Except GoError NetListener
  /-- The method `(*dnsserver.Server).Stop`. -/
  Stop : Server → Option GoError

end tunneldns

namespace http

open tunneldns

/-- The function `http.NewRequest` on a byte buffer: on success the request
carries the method, the URL and the buffer, no header, and the host of the
URL. -/
def NewRequest (world : World) (method url : String) (body : Bytes) :
    Except GoError HTTPRequest :=
  match world.newRequestErr method url with
  | some err => Except.error err
  | none =>
    Except.ok { Method := method, URL := url, Body := body, Header := [],
                Host := world.requestHost url }

end http

namespace tunneldns

/-! ## https_upstream.go: operations -/

/-- The function `NewUpstreamHTTPS`. -/
def NewUpstreamHTTPS (world : World) (endpoint : String) (bootstrap : List String) :
    Except GoError UpstreamHTTPS :=
  match world.urlParse endpoint with
  | Except.error err => Except.error err
  | Except.ok u =>
    let tls : TLSConfig := { ServerName := u.Hostname }
    let client : Client :=
      { Timeout := time.Second * defaultTimeout
        Transport := { TLSClientConfig := tls } }
    Except.ok { client := client, endpoint := u, addresses := bootstrap }

/-- What an exchange does that can be observed from outside: the request
handed to the client, the read and the close of the response body, and the
error log line. -/
inductive HTTPEvent where
  | clientDo (req : HTTPRequest)
  | readAll
  | bodyClose
  | logErrorf (err : GoError) (endpoint : URL)
deriving DecidableEq, Repr

/-- The method `UpstreamHTTPS.exchangeWireformat`. -/
def UpstreamHTTPS.exchangeWireformat (world : World) (u : UpstreamHTTPS) (msg : Bytes) :
    Except GoError Bytes × List HTTPEvent :=
  match http.NewRequest world "POST" u.endpoint.String msg with
  | Except.error err => (Except.error err, [])
  | Except.ok req0 =>
    let req1 := req0.HeaderAdd "Content-Type" "application/dns-udpwireformat"
    let req : HTTPRequest := { req1 with Host := u.endpoint.Hostname }
    match world.Do u.client req with
    | Except.error err => (Except.error err, [HTTPEvent.clientDo req])
    | Except.ok resp =>
      if resp.StatusCode ≠ 200 then
        (Except.error ⟨"returned status code " ++ toString resp.StatusCode⟩,
          [HTTPEvent.clientDo req])
      else
        match resp.Body with
        | Except.error err =>
          (Except.error err, [HTTPEvent.clientDo req, HTTPEvent.readAll, HTTPEvent.bodyClose])
        | Except.ok buf =>
          (Except.ok buf, [HTTPEvent.clientDo req, HTTPEvent.readAll, HTTPEvent.bodyClose])

/-- The method `UpstreamHTTPS.Exchange`: the returned `(*dns.Msg, error)` and
the calls made. -/
def UpstreamHTTPS.Exchange (world : World) (u : UpstreamHTTPS) (state : Request) :
    (Option Msg × Option GoError) × List HTTPEvent :=
  match world.Pack state.Req with
  | Except.error err => ((none, some err), [])
  | Except.ok queryBuf =>
    match u.exchangeWireformat world queryBuf with
    | (Except.ok buf, tr) =>
      match world.Unpack buf with
      | Except.error err => ((none, some err), tr)
      | Except.ok m => ((some { m with Id := state.Req.Id }, none), tr)
    | (Except.error backendErr, tr) =>
      ((none, some backendErr), tr ++ [HTTPEvent.logErrorf backendErr u.endpoint])

/-- The number of times an exchange handed a request to the HTTP client. -/
def countDo (tr : List HTTPEvent) : Nat :=
  (tr.filter (fun ev => match ev with | HTTPEvent.clientDo _ => true | _ => false)).length

/-- The requests an exchange handed to the HTTP client, in order. -/
def requestsSent : List HTTPEvent → List HTTPRequest
  | [] => []
  | HTTPEvent.clientDo req :: rest => req :: requestsSent rest
  | _ :: rest => requestsSent rest

/-- The request of the DoH wire-format convention for an upstream and a
packed query: a POST to the endpoint URL whose body is the query, with the
one header `Content-Type: application/dns-udpwireformat` and the endpoint
hostname as `Host`. -/
def UpstreamHTTPS.dohRequest (u : UpstreamHTTPS) (msg : Bytes) : HTTPRequest :=
  { Method := "POST", URL := u.endpoint.String, Body := msg,
    Header := [("Content-Type", "application/dns-udpwireformat")],
    Host := u.endpoint.Hostname }

/-! ## tunnel.go: operations -/

/-- The package variable `DefaultHost`. -/
def DefaultHost : String := "dns.cloudflare.com."

/-- The package variable `DefaultBootstrapAddress`. -/
def DefaultBootstrapAddress : List String :=
  ["2400:cb00:2048:1::6813:c066", "104.19.192.102"]

/-- What the listener code does that can be observed from outside. -/
inductive NetEvent where
  | logAddingUpstream (url : String)
  | newUpstreamHTTPS (url : String)
  | cacheNew
  | newServer (endpoint : String)
  | logStarting (addr : String)
  | listenPacket
  | listen
  | wgAdd (delta : Int)
  | goServePacket (udp : PacketConn)
  | goServe (tcp : NetListener)
  | serverStop
  | wgWait
deriving DecidableEq, Repr

/-- The function `createConfig`. -/
def createConfig (address : String) (port : Nat) (p : Handler) : Config :=
  let c : Config :=
    { Zone := ".", Transport := "dns", ListenHosts := [address],
      Port := toString port, Plugin := [] }
  { c with Plugin := c.Plugin ++ [p] }

/-- The loop of `CreateListener` that builds the list of upstreams;
`upstreamList` is the list built so far. -/
def buildUpstreamList (world : World) :
    List String → List UpstreamHTTPS → Except GoError (List UpstreamHTTPS) × List NetEvent
  | [], upstreamList => (Except.ok upstreamList, [])
  | url :: rest, upstreamList =>
    match NewUpstreamHTTPS world url DefaultBootstrapAddress with
    | Except.error err =>
      (Except.error err, [NetEvent.logAddingUpstream url, NetEvent.newUpstreamHTTPS url])
    | Except.ok upstream =>
      let r := buildUpstreamList world rest (upstreamList ++ [upstream])
      (r.1, NetEvent.logAddingUpstream url :: NetEvent.newUpstreamHTTPS url :: r.2)

/-- The calls the upstream-building loop makes for a list of URLs when it
handles every one of them: for each URL the log line and then
`NewUpstreamHTTPS`. -/
def addingEvents : List String → List NetEvent
  | [] => []
  | url :: rest =>
    NetEvent.logAddingUpstream url :: NetEvent.newUpstreamHTTPS url :: addingEvents rest

/-- The result of `CreateListener`: the returned `(*Listener, error)`, the
proxy plugin it built (if it got that far) and the calls made. -/
structure CreateResult where
  result : Except GoError Listener
  plugin : Option (ProxyPlugin UpstreamHTTPS)
  trace : List NetEvent

/-- The function `CreateListener`; `port` is a `uint16`. -/
def CreateListener (world : World) (address : String) (port : Nat) (upstreams : List String) :
    CreateResult :=
  match buildUpstreamList world upstreams [] with
  | (Except.error err, tr) => { result := Except.error err, plugin := none, trace := tr }
  | (Except.ok upstreamList, tr) =>
    let proxy : ProxyPlugin UpstreamHTTPS := { Upstreams := upstreamList }
    let chain := Handler.cache (Handler.proxy proxy)
    let endpoint := "dns://" ++ address ++ ":" ++ toString port
    let tr2 := tr ++ [NetEvent.cacheNew, NetEvent.newServer endpoint]
    match world.NewServer endpoint [createConfig address port (Handler.metrics chain)] with
    | Except.error err => { result := Except.error err, plugin := some proxy, trace := tr2 }
    | Except.ok server =>
      { result := Except.ok { server := server, wg := 0 }, plugin := some proxy, trace := tr2 }

/-- The method `Listener.Start`: the returned error, the listener afterwards
and the calls made. A launched service loop is the event `goServePacket` or
`goServe`. -/
def Listener.Start (world : World) (l : Listener) : Option GoError × Listener × List NetEvent :=
  let tr0 := [NetEvent.logStarting l.server.Address]
  match world.ListenPacket l.server with
  | Except.error err => (some err, l, tr0 ++ [NetEvent.listenPacket])
  | Except.ok udp =>
    let l1 : Listener := { l with wg := l.wg + 1 }
    let tr1 := tr0 ++ [NetEvent.listenPacket, NetEvent.wgAdd 1, NetEvent.goServePacket udp]
    match world.Listen l1.server with
    | Except.ok tcp =>
      let l2 : Listener := { l1 with wg := l1.wg + 1 }
      (none, l2, tr1 ++ [NetEvent.listen, NetEvent.wgAdd 1, NetEvent.goServe tcp])
    | Except.error err => (some err, l1, tr1 ++ [NetEvent.listen])

/-- Whether an event is a socket bind. -/
def NetEvent.isBind : NetEvent → Bool
  | NetEvent.listenPacket => true
  | NetEvent.listen => true
  | _ => false

/-- Whether an event launches a service loop. -/
def NetEvent.isLaunch : NetEvent → Bool
  | NetEvent.goServePacket _ => true
  | NetEvent.goServe _ => true
  | _ => false

/-- The number of service loops a run of calls launched. -/
def countLaunch (tr : List NetEvent) : Nat := (tr.filter NetEvent.isLaunch).length

/-- The number of socket binds a run of calls made. -/
def countBind (tr : List NetEvent) : Nat := (tr.filter NetEvent.isBind).length

/-! ### Stop and the service loops

The goroutines that `Start` launches run `func() { serve(...); l.wg.Done() }`
next to the caller of `Stop`. Their interleaving is a transition system: a
state holds the listener, the position of every launched goroutine and the
position of the call of `Stop`; an action is one step of one of them. -/

/-- Where a service loop goroutine stands: inside its `ServePacket` or `Serve`
call, after that call returned and before `l.wg.Done()`, or after
`l.wg.Done()`. -/
inductive LoopPC where
  | serving
  | returned
  | exited
deriving DecidableEq, Repr

/-- Where the call of `Listener.Stop` stands: not made yet, blocked in
`l.wg.Wait()`, or returned with its error. -/
inductive StopPC where
  | notCalled
  | waiting
  | returned (err : Option GoError)
deriving DecidableEq, Repr

/-- The method `Listener.Stop` up to the point where it returns or reaches
`l.wg.Wait()`, and the calls made. -/
def Listener.Stop (world : World) (l : Listener) : StopPC × List NetEvent :=
  match world.Stop l.server with
  | some err => (StopPC.returned (some err), [NetEvent.serverStop])
  | none => (StopPC.waiting, [NetEvent.serverStop, NetEvent.wgWait])

/-- The listener, its service loop goroutines and the call of `Stop`. -/
structure Sys where
  l : Listener
  loops : List LoopPC
  stop : StopPC
deriving DecidableEq, Repr

/-- One step of one goroutine: the serve call of loop `i` returns; loop `i`
calls `l.wg.Done()`; the caller calls `Stop`; the `l.wg.Wait()` of `Stop`
returns and `Stop` returns nil. -/
inductive Action where
  | serveReturns (i : Nat)
  | wgDone (i : Nat)
  | stopCall
  | waitReturns
deriving DecidableEq, Repr

/-- The state after an action, or `none` when the action cannot be taken:
`l.wg.Wait()` returns only when the counter is zero. -/
def Sys.step (world : World) (s : Sys) : Action → Option Sys
  | Action.serveReturns i =>
    if s.loops.get? i = some LoopPC.serving then
      some { s with loops := s.loops.set i LoopPC.returned }
    else none
  | Action.wgDone i =>
    if s.loops.get? i = some LoopPC.returned then
      some { s with l := { s.l with wg := s.l.wg - 1 }, loops := s.loops.set i LoopPC.exited }
    else none
  | Action.stopCall =>
    if s.stop = StopPC.notCalled then some { s with stop := (s.l.Stop world).1 } else none
  | Action.waitReturns =>
    if s.stop = StopPC.waiting ∧ s.l.wg = 0 then some { s with stop := StopPC.returned none }
    else none

/-- The state after a sequence of actions. -/
def Sys.run (world : World) : Sys → List Action → Option Sys
  | s, [] => some s
  | s, a :: rest =>
    match s.step world a with
    | none => none
    | some s2 => s2.run world rest

/-- The goroutines a run of calls launched, each inside its serve call. -/
def launchedLoops (tr : List NetEvent) : List LoopPC :=
  (tr.filter NetEvent.isLaunch).map (fun _ => LoopPC.serving)

/-- The state when `Start` has returned and `Stop` has not been called. -/
def Sys.afterStart (world : World) (l : Listener) : Sys :=
  let r := l.Start world
  { l := r.2.1, loops := launchedLoops r.2.2, stop := StopPC.notCalled }

/-- The number of goroutines that have not called `l.wg.Done()` yet. -/
def activeLoops : List LoopPC → Nat
  | [] => 0
  | LoopPC.exited :: rest => activeLoops rest
  | _ :: rest => activeLoops rest + 1

/-! ### Run -/

/-- The flags that `Run` reads from its `cli.Context`; `port` is the `uint` of
`c.Uint("port")`. -/
structure CliContext where
  metrics : String
  address : String
  port : Nat
  upstream : List String
deriving DecidableEq, Repr

/-- The collaborators of `Run` outside the listener: the error, if any, of
`net.Listen(network, address)` for the metrics listener; whether a SIGTERM or
SIGINT arrives; whether the serve calls of the launched loops return once
`server.Stop()` has returned nil. -/
structure Process where
  netListen : String → String → Option GoError
  signal : Bool
  loopsExit : Bool

/-- How `Run` ends: `log.Fatal` exits the process, `Run` returns its error, or
`Run` never returns. -/
inductive RunOutcome where
  | fatal (err : GoError)
  | returned (err : Option GoError)
  | blocked
deriving DecidableEq, Repr

/-- The whole of `Listener.Stop` as its caller sees it: the returned error, or
`none` when the call never returns. `l.wg.Wait()` returns when the counter is
zero, at once or after the launched loops have exited. -/
def Listener.StopAndWait (world : World) (loopsExit : Bool) (l : Listener) :
    Option (Option GoError) :=
  match (l.Stop world).1 with
  | StopPC.returned err => some err
  | StopPC.waiting => if l.wg = 0 ∨ loopsExit = true then some none else none
  | StopPC.notCalled => none

/-- The function `Run`. -/
def Run (world : World) (proc : Process) (c : CliContext) : RunOutcome :=
  match proc.netListen "tcp" c.metrics with
  | some err => RunOutcome.fatal err
  | none =>
    match (CreateListener world c.address (c.port % 65536) c.upstream).result with
    | Except.error err => RunOutcome.returned (some err)
    | Except.ok listener =>
      let started := listener.Start world
      match started.1 with
      | some _ =>
        match started.2.1.StopAndWait world proc.loopsExit with
        | some err => RunOutcome.returned err
        | none => RunOutcome.blocked
      | none =>
        if proc.signal = true then
          match started.2.1.StopAndWait world proc.loopsExit with
          | some err => RunOutcome.returned err
          | none => RunOutcome.blocked
        else RunOutcome.blocked

/-! ### Observations used in the statements -/

/-- The address that the transport of an upstream's client connects to for a
request: the client is built without proxy and without a dialer of its own,
so it is the host of the request URL. -/
def connectionTarget (world : World) (req : HTTPRequest) : String :=
  world.requestHost req.URL

/-- The messages written to the response writer, in order. -/
def writes : List ProxyEvent → List (Option Msg)
  | [] => []
  | ProxyEvent.writeMsg reply :: rest => reply :: writes rest
  | _ :: rest => writes rest

/-- The chain positions on which `Exchange` was called, in order. -/
def exchangedPositions : List ProxyEvent → List Nat
  | [] => []
  | ProxyEvent.exchange idx :: rest => idx :: exchangedPositions rest
  | _ :: rest => exchangedPositions rest

/-! ### ServeDNS with the plugin as state

To speak of the chain after a call, the plugin is threaded through the body
of `ServeDNS` as program state: each iteration of the `range` loop reads the
element at its position from the plugin it is handed and hands the plugin
on, and the call returns the plugin next to its result. -/

/-- The `range` loop of `ServeDNS` and the statement after it, with the plugin
as state: `remaining` is the number of iterations left (the loop length is
fixed when the loop starts), `idx` the position of this iteration. The
iteration reads `p.Upstreams[idx]`, assigns `reply` and `backendErr`, and
either returns or goes on. -/
def ProxyPlugin.serveLoopState {U : Type} (exch : U → Request → Option Msg × Option GoError)
    (state : Request) :
    Nat → Nat → ProxyPlugin U → Option Msg → Option GoError →
      ((Int × Option GoError) × List ProxyEvent) × ProxyPlugin U
  | 0, _, p, _, backendErr =>
    (((dns.RcodeServerFailure, some (fmt.Errorf_s_s (some errUnreachable) backendErr)), []), p)
  | remaining + 1, idx, p, _, backendErr =>
    match p.Upstreams[idx]? with
    | none =>
      (((dns.RcodeServerFailure, some (fmt.Errorf_s_s (some errUnreachable) backendErr)), []),
        p)
    | some upstream =>
      match exch upstream state with
      | (reply, none) =>
        (((0, none), [ProxyEvent.exchange idx, ProxyEvent.writeMsg reply]), p)
      | (reply, some e) =>
        let r := ProxyPlugin.serveLoopState exch state remaining (idx + 1) p reply (some e)
        ((r.1.1, ProxyEvent.exchange idx :: r.1.2), r.2)

/-- The method `ProxyPlugin.ServeDNS` with the plugin as state: the result,
the calls made, and the plugin after the call. -/
def ProxyPlugin.ServeDNSState {U : Type} (exch : U → Request → Option Msg × Option GoError)
    (p : ProxyPlugin U) (w : ResponseWriter) (r : Msg) :
    ((Int × Option GoError) × List ProxyEvent) × ProxyPlugin U :=
  let state : Request := { W := w, Req := r }
  ProxyPlugin.serveLoopState exch state p.Upstreams.length 0 p none none

/-- The calls of `ServeDNS` for a sequence of queries, each call made on the
plugin that the call before it left: the results with their calls, in the
order of the queries, and the plugin after the last call. -/
def ProxyPlugin.serveSequence {U : Type} (exch : U → Request → Option Msg × Option GoError) :
    ProxyPlugin U → List (ResponseWriter × Msg) →
      List ((Int × Option GoError) × List ProxyEvent) × ProxyPlugin U
  | p, [] => ([], p)
  | p, q :: rest =>
    let r := p.ServeDNSState exch q.1 q.2
    let rs := ProxyPlugin.serveSequence exch r.2 rest
    (r.1 :: rs.1, rs.2)

/-- The number of upstreams at the head of a chain whose `Exchange` returns an
error for a query. -/
def leadingFailures {U : Type} (exch : U → Request → Option Msg × Option GoError)
    (state : Request) (ups : List U) : Nat :=
  (ups.takeWhile (fun u => (exch u state).2.isSome)).length

end tunneldns

namespace tunnelrpc

/-! ## tunnelrpc.capnp.go: the enum ExistingTunnelPolicy -/

/-- The type `ExistingTunnelPolicy`, a `uint16`. -/
abbrev ExistingTunnelPolicy := Nat

/-- The constant `ExistingTunnelPolicy_ignore`. -/
def ExistingTunnelPolicy_ignore : ExistingTunnelPolicy := 0

/-- The constant `ExistingTunnelPolicy_disconnect`. -/
def ExistingTunnelPolicy_disconnect : ExistingTunnelPolicy := 1

/-- The constant `ExistingTunnelPolicy_balance`. -/
def ExistingTunnelPolicy_balance : ExistingTunnelPolicy := 2

/-- The method `ExistingTunnelPolicy.String`. -/
def ExistingTunnelPolicy.String (c : ExistingTunnelPolicy) : String :=
  if c = ExistingTunnelPolicy_ignore then "ignore"
  else if c = ExistingTunnelPolicy_disconnect then "disconnect"
  else if c = ExistingTunnelPolicy_balance then "balance"
  else ""

/-- The function `ExistingTunnelPolicyFromString`. -/
def ExistingTunnelPolicyFromString (c : String) : ExistingTunnelPolicy :=
  if c = "ignore" then ExistingTunnelPolicy_ignore
  else if c = "disconnect" then ExistingTunnelPolicy_disconnect
  else if c = "balance" then ExistingTunnelPolicy_balance
  else 0

end tunnelrpc

namespace tunneldns

/-! ## Concrete inputs -/

/-- A query with transaction ID `0x1234`. -/
def sampleQuery : Msg :=
  { Id := 0x1234, Response := false, Opcode := 0, Authoritative := false,
    Truncated := false, RecursionDesired := true, RecursionAvailable := false,
    Zero := false, AuthenticatedData := false, CheckingDisabled := false,
    Rcode := 0, Compress := false,
    Question := [{ Name := "example.com.", Qtype := 1, Qclass := 1 }],
    Answer := [], Ns := [], Extra := [] }

/-- An answer to `sampleQuery` as an upstream sends it, with a transaction ID
of its own. -/
def sampleAnswer : Msg :=
  { sampleQuery with
    Id := 0, Response := true, RecursionAvailable := true,
    Answer := [[93, 184, 216, 34]] }

/-- A response writer whose writes succeed. -/
def sampleWriter : ResponseWriter := { WriteMsg := fun _ => none }

/-- An upstream that answers or fails whatever the query is: `true` answers
with `sampleAnswer`, `false` fails with status 503. -/
def sampleExchange (up : Bool) (_state : Request) : Option Msg × Option GoError :=
  if up then (some sampleAnswer, none) else (none, some ⟨"returned status code 503"⟩)

/-- The URL `https://dns.example/dns-query` as `url.Parse` returns it. -/
def sampleURL : URL := { raw := "https://dns.example/dns-query", host := "dns.example" }

/-- An upstream for `sampleURL` with a client timeout of five seconds. -/
def sampleUpstream : UpstreamHTTPS :=
  { client := { Timeout := 5000000000,
                Transport := { TLSClientConfig := { ServerName := "dns.example" } } },
    endpoint := sampleURL, addresses := [] }

/-- A world in which `https://dns.example/dns-query` is the one URL that
parses, every query packs to its two ID bytes, every body of at least two
bytes unpacks to `sampleAnswer` with the ID read from them, and the endpoint
answers with the given status code and body. The server binds its sockets
when `bindUDP` and `bindTCP` say so. -/
def sampleWorld (status : Int) (body : Bytes) (bindUDP bindTCP : Bool) : World :=
  { urlParse := fun s =>
      if s = "https://dns.example/dns-query" then Except.ok sampleURL
      else Except.error ⟨"parse error"⟩
    Pack := fun m => Except.ok [m.Id / 256, m.Id % 256]
    Unpack := fun b =>
      match b with
      | hi :: lo :: _ => Except.ok { sampleAnswer with Id := hi * 256 + lo }
      | _ => Except.error ⟨"dns: overflow unpacking uint16"⟩
    newRequestErr := fun _ _ => none
    requestHost := fun _ => "dns.example"
    Do := fun _ _ => Except.ok { StatusCode := status, Body := Except.ok body }
    NewServer := fun endpoint _ => Except.ok { Address := endpoint }
    ListenPacket := fun _ =>
      if bindUDP then Except.ok { fd := 3 } else Except.error ⟨"listen udp: address already in use"⟩
    Listen := fun _ =>
      if bindTCP then Except.ok { fd := 4 } else Except.error ⟨"listen tcp: address already in use"⟩
    Stop := fun _ => none }

/-- A world like `sampleWorld 200 [0, 7] true true` in which the hostname of
the endpoint does not resolve: the client returns a lookup error. -/
def unresolvedWorld : World :=
  { sampleWorld 200 [0, 7] true true with
    Do := fun _ _ => Except.error ⟨"dial tcp: lookup dns.example: no such host"⟩ }

/-- A world like `sampleWorld 200 [0, 7] true true` in which `server.Stop()`
reports an error. -/
def stopFailsWorld : World :=
  { sampleWorld 200 [0, 7] true true with
    Stop := fun _ => some ⟨"dns: server not started"⟩ }

/-- The upstream that `NewUpstreamHTTPS` builds for
`https://dns.example/dns-query` and the default bootstrap list. -/
def sampleBuiltUpstream : UpstreamHTTPS :=
  { client := { Timeout := time.Second * defaultTimeout,
                Transport := { TLSClientConfig := { ServerName := "dns.example" } } },
    endpoint := sampleURL, addresses := DefaultBootstrapAddress }

/-- A listener as `CreateListener` returns it. -/
def sampleListener : Listener := { server := { Address := "dns://127.0.0.1:53" }, wg := 0 }

/-- A process whose metrics listener binds, that receives a signal and whose
service loops exit on stop. -/
def sampleProcess : Process := { netListen := fun _ _ => none, signal := true, loopsExit := true }

/-- Flags with one upstream that parses. -/
def sampleContext : CliContext :=
  { metrics := "localhost:", address := "127.0.0.1", port := 53,
    upstream := ["https://dns.example/dns-query"] }

/-- The URL `https://doh.example/q` as `url.Parse` returns it. -/
def dohURL : URL := { raw := "https://doh.example/q", host := "doh.example" }

/-- The URL `https://resolver.example:8443/dns` as `url.Parse` returns it. -/
def resolverURL : URL :=
  { raw := "https://resolver.example:8443/dns", host := "resolver.example" }

/-- A world like `sampleWorld 200 [] true true` in which three URL texts
parse, each to an endpoint of its own. -/
def threeURLWorld : World :=
  { sampleWorld 200 [] true true with
    urlParse := fun s =>
      if s = "https://dns.example/dns-query" then Except.ok sampleURL
      else if s = "https://doh.example/q" then Except.ok dohURL
      else if s = "https://resolver.example:8443/dns" then Except.ok resolverURL
      else Except.error ⟨"parse error"⟩ }

/-- A query like `sampleQuery` with transaction ID 7. -/
def smallQuery : Msg := { sampleQuery with Id := 7 }

/-- An upstream, given by a least transaction ID, that answers the queries
whose ID is at least that number and fails with status 503 on the others. -/
def thresholdExchange (least : Nat) (state : Request) : Option Msg × Option GoError :=
  if least ≤ state.Req.Id then (some sampleAnswer, none)
  else (none, some ⟨"returned status code 503"⟩)

/-- A response writer whose writes fail. -/
def failingWriter : ResponseWriter := { WriteMsg := fun _ => some ⟨"write: broken pipe"⟩ }

/-! ## Lemmas on the failover loop -/

lemma serveLoop_first_success {U : Type} (exch : U → Request → Option Msg × Option GoError)
    (state : Request) :
    ∀ (ups : List U) (k : Nat) (reply0 : Option Msg) (err0 : Option GoError)
      (i : Nat) (hi : i < ups.length),
      (exch (ups.get ⟨i, hi⟩) state).2 = none →
      (∀ u ∈ ups.take i, (exch u state).2 ≠ none) →
      ProxyPlugin.serveLoop exch state ups k reply0 err0 =
        ((0, none),
          (List.range (i + 1)).map (fun j => ProxyEvent.exchange (k + j)) ++
            [ProxyEvent.writeMsg (exch (ups.get ⟨i, hi⟩) state).1]) := by
  intro ups
  induction ups with
  | nil => intro k reply0 err0 i hi; simp at hi
  | cons u rest ih =>
    intro k reply0 err0 i hi hok hbefore
    cases i with
    | zero =>
      have hok2 : (exch u state).2 = none := hok
      rcases hx : exch u state with ⟨reply, _ | e⟩
      · simp [ProxyPlugin.serveLoop, hx, List.range_succ]
      · simp [hx] at hok2
    | succ i =>
      have hu : (exch u state).2 ≠ none := hbefore u (by simp)
      rcases hx : exch u state with ⟨reply, _ | e⟩
      · simp [hx] at hu
      · have hi2 : i < rest.length := by simpa using hi
        have hrest := ih (k + 1) reply (some e) i hi2 (by simpa using hok)
          (fun v hv => hbefore v (by simp [hv]))
        simp only [ProxyPlugin.serveLoop, hx, hrest, List.get_cons_succ]
        rw [List.range_succ_eq_map (i + 1)]
        simp [List.map_map, Function.comp_def, Nat.add_assoc, Nat.add_comm 1]

lemma serveLoop_all_fail {U : Type} (exch : U → Request → Option Msg × Option GoError)
    (state : Request) :
    ∀ (ups : List U) (k : Nat) (reply0 : Option Msg) (err0 : Option GoError),
      (∀ u ∈ ups, (exch u state).2 ≠ none) →
      ProxyPlugin.serveLoop exch state ups k reply0 err0 =
        ((dns.RcodeServerFailure,
          some (fmt.Errorf_s_s (some errUnreachable)
            ((ups.getLast?.map (fun u => (exch u state).2)).getD err0))),
          (List.range ups.length).map (fun j => ProxyEvent.exchange (k + j))) := by
  intro ups
  induction ups with
  | nil => intro k reply0 err0 _; simp [ProxyPlugin.serveLoop]
  | cons u rest ih =>
    intro k reply0 err0 hall
    have hu : (exch u state).2 ≠ none := hall u (by simp)
    rcases hx : exch u state with ⟨reply, _ | e⟩
    · simp [hx] at hu
    · have hrest := ih (k + 1) reply (some e) (fun v hv => hall v (by simp [hv]))
      simp only [ProxyPlugin.serveLoop, hx, hrest, List.length_cons]
      rw [List.range_succ_eq_map rest.length]
      cases rest with
      | nil => simp [hx]
      | cons v rest2 =>
        simp [List.getLast?_eq_getLast _ (List.cons_ne_nil v rest2), List.map_map,
          Function.comp_def, Nat.add_assoc, Nat.add_comm 1]

end tunneldns

namespace tunneldns

/-! ## Failover resolver -/

/-- C1: when upstream `i` is the first of the chain whose `Exchange` returns
no error, `ServeDNS` calls `Exchange` on the upstreams `0..i` once each in
chain order and on no later upstream, writes the reply of upstream `i` and
nothing else to the response writer, and returns `(0, nil)`. -/
theorem ServeDNS_first_success {U : Type} (exch : U → Request → Option Msg × Option GoError)
    (p : ProxyPlugin U) (w : ResponseWriter) (r : Msg)
    (i : Nat) (hi : i < p.Upstreams.length)
    (hok : (exch (p.Upstreams.get ⟨i, hi⟩) { W := w, Req := r }).2 = none)
    (hbefore : ∀ u ∈ p.Upstreams.take i, (exch u { W := w, Req := r }).2 ≠ none) :
    p.ServeDNS exch w r =
      ((0, none),
        (List.range (i + 1)).map ProxyEvent.exchange ++
          [ProxyEvent.writeMsg (exch (p.Upstreams.get ⟨i, hi⟩) { W := w, Req := r }).1]) := by
  have h := serveLoop_first_success exch { W := w, Req := r } p.Upstreams 0 none none i hi hok
    hbefore
  simpa [ProxyPlugin.ServeDNS] using h

/-- Witness for C1: a chain of three upstreams of which the first returns
status 503 and the second answers. -/
theorem ServeDNS_first_success_witness :
    ProxyPlugin.ServeDNS sampleExchange { Upstreams := [false, true, true] } sampleWriter
        sampleQuery =
      ((0, none),
        [ProxyEvent.exchange 0, ProxyEvent.exchange 1,
          ProxyEvent.writeMsg (some sampleAnswer)]) :=
  ServeDNS_first_success sampleExchange { Upstreams := [false, true, true] } sampleWriter
    sampleQuery 1 (by decide) rfl (by decide)

/-- C2: when the chain is not empty and every upstream fails, `ServeDNS`
returns `dns.RcodeServerFailure` and a non-nil error whose text is
`unreachable backend: ` followed by the text of the last upstream's error;
two chains that fail throughout with the same last error give the same
result, whatever the earlier errors are. -/
theorem ServeDNS_all_fail {U : Type} (exch : U → Request → Option Msg × Option GoError)
    (p : ProxyPlugin U) (w : ResponseWriter) (r : Msg)
    (hne : p.Upstreams ≠ [])
    (hall : ∀ u ∈ p.Upstreams, (exch u { W := w, Req := r }).2 ≠ none) :
    (∃ e : GoError,
      (exch (p.Upstreams.getLast hne) { W := w, Req := r }).2 = some e ∧
      (p.ServeDNS exch w r).1 =
        (dns.RcodeServerFailure, some ⟨"unreachable backend: " ++ e.Error⟩)) ∧
    (∀ (V : Type) (exch2 : V → Request → Option Msg × Option GoError) (p2 : ProxyPlugin V)
      (hne2 : p2.Upstreams ≠ []),
      (∀ v ∈ p2.Upstreams, (exch2 v { W := w, Req := r }).2 ≠ none) →
      (exch2 (p2.Upstreams.getLast hne2) { W := w, Req := r }).2 =
        (exch (p.Upstreams.getLast hne) { W := w, Req := r }).2 →
      (p2.ServeDNS exch2 w r).1 = (p.ServeDNS exch w r).1) := by
  have hlast : (exch (p.Upstreams.getLast hne) { W := w, Req := r }).2 ≠ none :=
    hall _ (List.getLast_mem hne)
  have h := serveLoop_all_fail exch { W := w, Req := r } p.Upstreams 0 none none hall
  constructor
  · rcases hx : (exch (p.Upstreams.getLast hne) { W := w, Req := r }).2 with _ | e
    · exact absurd hx hlast
    · refine ⟨e, rfl, ?_⟩
      simp only [ProxyPlugin.ServeDNS, h, List.getLast?_eq_getLast _ hne, Option.map_some',
        Option.getD_some, hx]
      simp [fmt.Errorf_s_s, fmt.verbS, errUnreachable, String.append_assoc]
  · intro V exch2 p2 hne2 hall2 hsame
    have h2 := serveLoop_all_fail exch2 { W := w, Req := r } p2.Upstreams 0 none none hall2
    simp only [ProxyPlugin.ServeDNS, h, h2, List.getLast?_eq_getLast _ hne,
      List.getLast?_eq_getLast _ hne2, Option.map_some', Option.getD_some, hsame]

/-- Witness for C2: two upstreams that both return status 503. -/
theorem ServeDNS_all_fail_witness :
    (∃ e : GoError,
      (sampleExchange ([false, false].getLast (by decide))
        { W := sampleWriter, Req := sampleQuery }).2 = some e ∧
      (ProxyPlugin.ServeDNS sampleExchange { Upstreams := [false, false] } sampleWriter
        sampleQuery).1 =
        (dns.RcodeServerFailure, some ⟨"unreachable backend: " ++ e.Error⟩)) :=
  (ServeDNS_all_fail sampleExchange { Upstreams := [false, false] } sampleWriter sampleQuery
    (by decide) (by decide)).1

end tunneldns

namespace tunneldns

/-! ## DoH exchanger -/

lemma exchangeWireformat_newRequest_fails (world : World) (u : UpstreamHTTPS) (msg : Bytes)
    (err : GoError) (h : world.newRequestErr "POST" u.endpoint.String = some err) :
    u.exchangeWireformat world msg = (Except.error err, []) := by
  simp [UpstreamHTTPS.exchangeWireformat, http.NewRequest, h]

lemma exchangeWireformat_sent (world : World) (u : UpstreamHTTPS) (msg : Bytes)
    (h : world.newRequestErr "POST" u.endpoint.String = none) :
    u.exchangeWireformat world msg =
      match world.Do u.client (u.dohRequest msg) with
      | Except.error err => (Except.error err, [HTTPEvent.clientDo (u.dohRequest msg)])
      | Except.ok resp =>
        if resp.StatusCode ≠ 200 then
          (Except.error ⟨"returned status code " ++ toString resp.StatusCode⟩,
            [HTTPEvent.clientDo (u.dohRequest msg)])
        else
          match resp.Body with
          | Except.error err =>
            (Except.error err,
              [HTTPEvent.clientDo (u.dohRequest msg), HTTPEvent.readAll, HTTPEvent.bodyClose])
          | Except.ok buf =>
            (Except.ok buf,
              [HTTPEvent.clientDo (u.dohRequest msg), HTTPEvent.readAll, HTTPEvent.bodyClose]) := by
  simp [UpstreamHTTPS.exchangeWireformat, http.NewRequest, h, UpstreamHTTPS.dohRequest,
    HTTPRequest.HeaderAdd]

end tunneldns

namespace tunneldns

lemma Exchange_cases (world : World) (u : UpstreamHTTPS) (state : Request) :
    (∃ err, world.Pack state.Req = Except.error err ∧
      u.Exchange world state = ((none, some err), [])) ∨
    (∃ queryBuf err, world.Pack state.Req = Except.ok queryBuf ∧
      world.newRequestErr "POST" u.endpoint.String = some err ∧
      u.Exchange world state = ((none, some err), [HTTPEvent.logErrorf err u.endpoint])) ∨
    (∃ queryBuf err, world.Pack state.Req = Except.ok queryBuf ∧
      world.newRequestErr "POST" u.endpoint.String = none ∧
      world.Do u.client (u.dohRequest queryBuf) = Except.error err ∧
      u.Exchange world state =
        ((none, some err),
          [HTTPEvent.clientDo (u.dohRequest queryBuf), HTTPEvent.logErrorf err u.endpoint])) ∨
    (∃ queryBuf resp, world.Pack state.Req = Except.ok queryBuf ∧
      world.newRequestErr "POST" u.endpoint.String = none ∧
      world.Do u.client (u.dohRequest queryBuf) = Except.ok resp ∧
      resp.StatusCode ≠ 200 ∧
      u.Exchange world state =
        ((none, some ⟨"returned status code " ++ toString resp.StatusCode⟩),
          [HTTPEvent.clientDo (u.dohRequest queryBuf),
            HTTPEvent.logErrorf ⟨"returned status code " ++ toString resp.StatusCode⟩
              u.endpoint])) ∨
    (∃ queryBuf resp err, world.Pack state.Req = Except.ok queryBuf ∧
      world.newRequestErr "POST" u.endpoint.String = none ∧
      world.Do u.client (u.dohRequest queryBuf) = Except.ok resp ∧
      resp.StatusCode = 200 ∧ resp.Body = Except.error err ∧
      u.Exchange world state =
        ((none, some err),
          [HTTPEvent.clientDo (u.dohRequest queryBuf), HTTPEvent.readAll, HTTPEvent.bodyClose,
            HTTPEvent.logErrorf err u.endpoint])) ∨
    (∃ queryBuf resp buf err, world.Pack state.Req = Except.ok queryBuf ∧
      world.newRequestErr "POST" u.endpoint.String = none ∧
      world.Do u.client (u.dohRequest queryBuf) = Except.ok resp ∧
      resp.StatusCode = 200 ∧ resp.Body = Except.ok buf ∧
      world.Unpack buf = Except.error err ∧
      u.Exchange world state =
        ((none, some err),
          [HTTPEvent.clientDo (u.dohRequest queryBuf), HTTPEvent.readAll,
            HTTPEvent.bodyClose])) ∨
    (∃ queryBuf resp buf m, world.Pack state.Req = Except.ok queryBuf ∧
      world.newRequestErr "POST" u.endpoint.String = none ∧
      world.Do u.client (u.dohRequest queryBuf) = Except.ok resp ∧
      resp.StatusCode = 200 ∧ resp.Body = Except.ok buf ∧
      world.Unpack buf = Except.ok m ∧
      u.Exchange world state =
        ((some { m with Id := state.Req.Id }, none),
          [HTTPEvent.clientDo (u.dohRequest queryBuf), HTTPEvent.readAll,
            HTTPEvent.bodyClose])) := by
  rcases hp : world.Pack state.Req with err | queryBuf
  · left
    exact ⟨err, rfl, by simp [UpstreamHTTPS.Exchange, hp]⟩
  right
  rcases hr : world.newRequestErr "POST" u.endpoint.String with _ | err
  swap
  · left
    refine ⟨queryBuf, err, rfl, rfl, ?_⟩
    simp [UpstreamHTTPS.Exchange, hp, exchangeWireformat_newRequest_fails world u queryBuf err hr]
  right
  have hw := exchangeWireformat_sent world u queryBuf hr
  rcases hd : world.Do u.client (u.dohRequest queryBuf) with err | resp
  · left
    refine ⟨queryBuf, err, rfl, rfl, hd, ?_⟩
    rw [hd] at hw
    simp [UpstreamHTTPS.Exchange, hp, hw]
  right
  rw [hd] at hw
  by_cases hs : resp.StatusCode = 200
  swap
  · left
    refine ⟨queryBuf, resp, rfl, rfl, hd, hs, ?_⟩
    simp only [ne_eq, hs, not_false_eq_true, if_true] at hw
    simp [UpstreamHTTPS.Exchange, hp, hw]
  right
  simp only [ne_eq, hs, not_true_eq_false, if_false] at hw
  rcases hb : resp.Body with err | buf
  · left
    refine ⟨queryBuf, resp, err, rfl, rfl, hd, hs, hb, ?_⟩
    rw [hb] at hw
    simp [UpstreamHTTPS.Exchange, hp, hw]
  right
  rw [hb] at hw
  rcases hu : world.Unpack buf with err | m
  · left
    refine ⟨queryBuf, resp, buf, err, rfl, rfl, hd, hs, hb, hu, ?_⟩
    simp [UpstreamHTTPS.Exchange, hp, hw, hu]
  right
  refine ⟨queryBuf, resp, buf, m, rfl, rfl, hd, hs, hb, hu, ?_⟩
  simp [UpstreamHTTPS.Exchange, hp, hw, hu]

end tunneldns

namespace tunneldns

lemma Exchange_success (world : World) (u : UpstreamHTTPS) (state : Request)
    (queryBuf : Bytes) (resp : HTTPResponse) (buf : Bytes) (m : Msg)
    (hpack : world.Pack state.Req = Except.ok queryBuf)
    (hreq : world.newRequestErr "POST" u.endpoint.String = none)
    (hdo : world.Do u.client (u.dohRequest queryBuf) = Except.ok resp)
    (hstatus : resp.StatusCode = 200)
    (hbody : resp.Body = Except.ok buf)
    (hunpack : world.Unpack buf = Except.ok m) :
    (u.Exchange world state).1 = (some { m with Id := state.Req.Id }, none) := by
  have hw := exchangeWireformat_sent world u queryBuf hreq
  rw [hdo] at hw
  simp only [ne_eq, hstatus, not_true_eq_false, if_false] at hw
  rw [hbody] at hw
  simp [UpstreamHTTPS.Exchange, hpack, hw, hunpack]

lemma Exchange_status_not_200 (world : World) (u : UpstreamHTTPS) (state : Request)
    (queryBuf : Bytes) (resp : HTTPResponse)
    (hpack : world.Pack state.Req = Except.ok queryBuf)
    (hreq : world.newRequestErr "POST" u.endpoint.String = none)
    (hdo : world.Do u.client (u.dohRequest queryBuf) = Except.ok resp)
    (hstatus : resp.StatusCode ≠ 200) :
    (u.Exchange world state).1 =
      (none, some ⟨"returned status code " ++ toString resp.StatusCode⟩) := by
  have hw := exchangeWireformat_sent world u queryBuf hreq
  rw [hdo] at hw
  simp only [ne_eq, hstatus, not_false_eq_true, if_true] at hw
  simp [UpstreamHTTPS.Exchange, hpack, hw]

/-- C3: when the query packs, the request is sent and the endpoint answers
with status 200 and a body that unpacks to a message `m`, `Exchange` returns
a message, with a nil error, whose transaction ID is the transaction ID of
the query, whatever the ID of `m` is. -/
theorem Exchange_keeps_query_id (world : World) (u : UpstreamHTTPS) (state : Request)
    (queryBuf : Bytes) (resp : HTTPResponse) (buf : Bytes) (m : Msg)
    (hpack : world.Pack state.Req = Except.ok queryBuf)
    (hreq : world.newRequestErr "POST" u.endpoint.String = none)
    (hdo : world.Do u.client (u.dohRequest queryBuf) = Except.ok resp)
    (hstatus : resp.StatusCode = 200)
    (hbody : resp.Body = Except.ok buf)
    (hunpack : world.Unpack buf = Except.ok m) :
    ∃ reply : Msg, (u.Exchange world state).1 = (some reply, none) ∧
      reply.Id = state.Req.Id :=
  ⟨{ m with Id := state.Req.Id },
    Exchange_success world u state queryBuf resp buf m hpack hreq hdo hstatus hbody hunpack,
    rfl⟩

/-- Witness for C3: the query has ID `0x1234`, the body of the status 200
response carries ID 7. -/
theorem Exchange_keeps_query_id_witness :
    ∃ reply : Msg,
      (sampleUpstream.Exchange (sampleWorld 200 [0, 7] true true)
        { W := sampleWriter, Req := sampleQuery }).1 = (some reply, none) ∧
      reply.Id = 0x1234 :=
  Exchange_keeps_query_id (sampleWorld 200 [0, 7] true true) sampleUpstream
    { W := sampleWriter, Req := sampleQuery } [18, 52]
    { StatusCode := 200, Body := Except.ok [0, 7] } [0, 7] { sampleAnswer with Id := 7 }
    rfl rfl rfl rfl rfl rfl

/-- C4: `Exchange` returns a message with a nil error exactly when the query
packs, the request is built, the client returns a response without error,
the status code is 200, the body is read without error and the body unpacks;
and for a response with any status code other than 200 it returns no message
and the error `returned status code <code>`, whatever the body is. -/
theorem Exchange_success_iff (world : World) (u : UpstreamHTTPS) (state : Request) :
    ((∃ reply : Msg, (u.Exchange world state).1 = (some reply, none)) ↔
      ∃ (queryBuf : Bytes) (resp : HTTPResponse) (buf : Bytes) (m : Msg),
        world.Pack state.Req = Except.ok queryBuf ∧
        world.newRequestErr "POST" u.endpoint.String = none ∧
        world.Do u.client (u.dohRequest queryBuf) = Except.ok resp ∧
        resp.StatusCode = 200 ∧
        resp.Body = Except.ok buf ∧
        world.Unpack buf = Except.ok m) ∧
    ((u.Exchange world state).1.2 = none →
      ∃ reply : Msg, (u.Exchange world state).1.1 = some reply) ∧
    (∀ (queryBuf : Bytes) (resp : HTTPResponse),
      world.Pack state.Req = Except.ok queryBuf →
      world.newRequestErr "POST" u.endpoint.String = none →
      world.Do u.client (u.dohRequest queryBuf) = Except.ok resp →
      resp.StatusCode ≠ 200 →
      (u.Exchange world state).1 =
        (none, some ⟨"returned status code " ++ toString resp.StatusCode⟩)) := by
  refine ⟨⟨?_, ?_⟩, ?_, ?_⟩
  · rintro ⟨reply, hreply⟩
    rcases Exchange_cases world u state with
      ⟨err, _, h⟩ | ⟨q, err, _, _, h⟩ | ⟨q, err, _, _, _, h⟩ | ⟨q, resp, _, _, _, _, h⟩ |
      ⟨q, resp, err, _, _, _, _, _, h⟩ | ⟨q, resp, buf, err, _, _, _, _, _, _, h⟩ |
      ⟨q, resp, buf, m, hp, hr, hd, hs, hb, hu, _⟩
    · simp [h] at hreply
    · simp [h] at hreply
    · simp [h] at hreply
    · simp [h] at hreply
    · simp [h] at hreply
    · simp [h] at hreply
    · exact ⟨q, resp, buf, m, hp, hr, hd, hs, hb, hu⟩
  · rintro ⟨q, resp, buf, m, hp, hr, hd, hs, hb, hu⟩
    exact ⟨_, Exchange_success world u state q resp buf m hp hr hd hs hb hu⟩
  · intro hnil
    rcases Exchange_cases world u state with
      ⟨err, _, h⟩ | ⟨q, err, _, _, h⟩ | ⟨q, err, _, _, _, h⟩ | ⟨q, resp, _, _, _, _, h⟩ |
      ⟨q, resp, err, _, _, _, _, _, h⟩ | ⟨q, resp, buf, err, _, _, _, _, _, _, h⟩ |
      ⟨q, resp, buf, m, _, _, _, _, _, _, h⟩
    · simp [h] at hnil
    · simp [h] at hnil
    · simp [h] at hnil
    · simp [h] at hnil
    · simp [h] at hnil
    · simp [h] at hnil
    · exact ⟨_, by rw [h]⟩
  · intro q resp hp hr hd hs
    exact Exchange_status_not_200 world u state q resp hp hr hd hs

/-- Witness for C4: a response with status 204 and a body that would unpack
gives no message and the error `returned status code 204`. -/
theorem Exchange_success_iff_witness :
    (sampleUpstream.Exchange (sampleWorld 204 [0, 7] true true)
      { W := sampleWriter, Req := sampleQuery }).1 =
      (none, some ⟨"returned status code 204"⟩) :=
  (Exchange_success_iff (sampleWorld 204 [0, 7] true true) sampleUpstream
    { W := sampleWriter, Req := sampleQuery }).2.2 [18, 52]
    { StatusCode := 204, Body := Except.ok [0, 7] } rfl rfl rfl (by decide)

/-- C5: when `http.NewRequest` accepts the endpoint URL, `exchangeWireformat`
hands the client exactly one request: a POST to the endpoint URL whose body
is the packed query byte for byte, whose `Content-Type` header is
`application/dns-udpwireformat` and whose `Host` is the hostname of the
endpoint URL. -/
theorem exchangeWireformat_request (world : World) (u : UpstreamHTTPS) (msg : Bytes)
    (hreq : world.newRequestErr "POST" u.endpoint.String = none) :
    ∃ req : HTTPRequest,
      requestsSent (u.exchangeWireformat world msg).2 = [req] ∧
      req.Method = "POST" ∧
      req.URL = u.endpoint.String ∧
      req.Body = msg ∧
      req.HeaderGet "Content-Type" = "application/dns-udpwireformat" ∧
      req.Header = [("Content-Type", "application/dns-udpwireformat")] ∧
      req.Host = u.endpoint.Hostname := by
  refine ⟨u.dohRequest msg, ?_, rfl, rfl, rfl, ?_, rfl, rfl⟩
  · rw [exchangeWireformat_sent world u msg hreq]
    rcases world.Do u.client (u.dohRequest msg) with err | resp
    · simp [requestsSent]
    · by_cases hs : resp.StatusCode = 200
      · rcases hb : resp.Body with err | buf <;> simp [hs, hb, requestsSent]
      · simp [hs, requestsSent]
  · simp [HTTPRequest.HeaderGet, UpstreamHTTPS.dohRequest]

/-- Witness for C5: the request for the packed query `[18, 52]`. -/
theorem exchangeWireformat_request_witness :
    ∃ req : HTTPRequest,
      requestsSent (sampleUpstream.exchangeWireformat (sampleWorld 200 [0, 7] true true)
        [18, 52]).2 = [req] ∧
      req.Method = "POST" ∧
      req.URL = sampleUpstream.endpoint.String ∧
      req.Body = [18, 52] ∧
      req.HeaderGet "Content-Type" = "application/dns-udpwireformat" ∧
      req.Header = [("Content-Type", "application/dns-udpwireformat")] ∧
      req.Host = sampleUpstream.endpoint.Hostname :=
  exchangeWireformat_request (sampleWorld 200 [0, 7] true true) sampleUpstream [18, 52] rfl

/-- C7: one call of `Exchange` hands at most one request to the HTTP client:
exactly one when the query packs and the request is built, none when packing
fails or the request is not built; and the result is either a message with
a nil error or no message with a non-nil error. -/
theorem Exchange_no_retry (world : World) (u : UpstreamHTTPS) (state : Request) :
    countDo (u.Exchange world state).2 ≤ 1 ∧
    (∀ queryBuf : Bytes, world.Pack state.Req = Except.ok queryBuf →
      world.newRequestErr "POST" u.endpoint.String = none →
      countDo (u.Exchange world state).2 = 1) ∧
    (∀ err : GoError, world.Pack state.Req = Except.error err →
      countDo (u.Exchange world state).2 = 0) ∧
    (∀ err : GoError, world.newRequestErr "POST" u.endpoint.String = some err →
      countDo (u.Exchange world state).2 = 0) ∧
    ((∃ reply : Msg, (u.Exchange world state).1 = (some reply, none)) ∨
      (∃ err : GoError, (u.Exchange world state).1 = (none, some err))) := by
  rcases Exchange_cases world u state with
    ⟨err, hp, h⟩ | ⟨q, err, hp, hr, h⟩ | ⟨q, err, hp, hr, _, h⟩ | ⟨q, resp, hp, hr, _, _, h⟩ |
    ⟨q, resp, err, hp, hr, _, _, _, h⟩ | ⟨q, resp, buf, err, hp, hr, _, _, _, _, h⟩ |
    ⟨q, resp, buf, m, hp, hr, _, _, _, _, h⟩
  · simp [h, hp, countDo]
  all_goals simp [h, hp, hr, countDo]

/-- Instance of C7: a response with status 503 is not retried; the client is
called once and the failure is returned. -/
theorem Exchange_no_retry_witness :
    countDo (sampleUpstream.Exchange (sampleWorld 503 [] true true)
      { W := sampleWriter, Req := sampleQuery }).2 = 1 :=
  (Exchange_no_retry (sampleWorld 503 [] true true) sampleUpstream
    { W := sampleWriter, Req := sampleQuery }).2.1 [18, 52] rfl rfl

end tunneldns

namespace tunneldns

/-! ## Listener construction -/

lemma NewUpstreamHTTPS_error (world : World) (endpoint : String) (bootstrap : List String)
    (err : GoError) (h : world.urlParse endpoint = Except.error err) :
    NewUpstreamHTTPS world endpoint bootstrap = Except.error err := by
  simp [NewUpstreamHTTPS, h]

lemma NewUpstreamHTTPS_ok (world : World) (endpoint : String) (bootstrap : List String)
    (u : URL) (h : world.urlParse endpoint = Except.ok u) :
    NewUpstreamHTTPS world endpoint bootstrap =
      Except.ok
        { client :=
            { Timeout := time.Second * defaultTimeout
              Transport := { TLSClientConfig := { ServerName := u.Hostname } } }
          endpoint := u
          addresses := bootstrap } := by
  simp [NewUpstreamHTTPS, h]

lemma addingEvents_append (xs ys : List String) :
    addingEvents (xs ++ ys) = addingEvents xs ++ addingEvents ys := by
  induction xs with
  | nil => rfl
  | cons x xs ih => simp [addingEvents, ih]

lemma buildUpstreamList_error (world : World) :
    ∀ (upstreams : List String) (acc : List UpstreamHTTPS),
      (∃ url ∈ upstreams, ∃ err, world.urlParse url = Except.error err) →
      ∃ (pre : List String) (bad : String) (post : List String) (err : GoError),
        upstreams = pre ++ bad :: post ∧
        (∀ url ∈ pre, ∃ u, world.urlParse url = Except.ok u) ∧
        world.urlParse bad = Except.error err ∧
        buildUpstreamList world upstreams acc =
          (Except.error err, addingEvents (pre ++ [bad])) := by
  intro upstreams
  induction upstreams with
  | nil => intro acc h; simp at h
  | cons url rest ih =>
    intro acc h
    rcases hp : world.urlParse url with err | u
    · refine ⟨[], url, rest, err, rfl, by simp, hp, ?_⟩
      simp [buildUpstreamList, NewUpstreamHTTPS_error world url _ err hp, addingEvents]
    · have hrest : ∃ url2 ∈ rest, ∃ err, world.urlParse url2 = Except.error err := by
        rcases h with ⟨url2, hmem, err, herr⟩
        rcases List.mem_cons.mp hmem with heq | hmem2
        · subst heq
          rw [hp] at herr
          cases herr
        · exact ⟨url2, hmem2, err, herr⟩
      obtain ⟨up, hnew⟩ : ∃ up, NewUpstreamHTTPS world url DefaultBootstrapAddress =
          Except.ok up := ⟨_, NewUpstreamHTTPS_ok world url _ u hp⟩
      rcases ih (acc ++ [up]) hrest with ⟨pre, bad, post, err, hsplit, hpre, hbad, hbuild⟩
      refine ⟨url :: pre, bad, post, err, by simp [hsplit], ?_, hbad, ?_⟩
      · intro url2 hmem
        rcases List.mem_cons.mp hmem with heq | hmem2
        · subst heq
          exact ⟨u, hp⟩
        · exact hpre url2 hmem2
      · simp [buildUpstreamList, hnew, hbuild, addingEvents]

lemma buildUpstreamList_ok (world : World) :
    ∀ (upstreams : List String) (acc : List UpstreamHTTPS),
      (∀ url ∈ upstreams, ∃ u, world.urlParse url = Except.ok u) →
      ∃ built : List UpstreamHTTPS,
        buildUpstreamList world upstreams acc = (Except.ok (acc ++ built), addingEvents upstreams) ∧
        built.map (fun up => (Except.ok up.endpoint : Except GoError URL)) =
          upstreams.map world.urlParse ∧
        (∀ up ∈ built, up.addresses = DefaultBootstrapAddress) := by
  intro upstreams
  induction upstreams with
  | nil => intro acc _; exact ⟨[], by simp [buildUpstreamList, addingEvents], rfl, by simp⟩
  | cons url rest ih =>
    intro acc h
    rcases h url (by simp) with ⟨u, hp⟩
    obtain ⟨up, hnew, hend, hboot⟩ : ∃ up, NewUpstreamHTTPS world url DefaultBootstrapAddress =
        Except.ok up ∧ up.endpoint = u ∧ up.addresses = DefaultBootstrapAddress :=
      ⟨_, NewUpstreamHTTPS_ok world url _ u hp, rfl, rfl⟩
    rcases ih (acc ++ [up]) (fun v hv => h v (by simp [hv])) with ⟨built, hbuild, hmap, haddr⟩
    refine ⟨up :: built, ?_, ?_, ?_⟩
    · simp [buildUpstreamList, hnew, hbuild, addingEvents]
    · simp [hmap, hp, hend]
    · intro up2 hup
      rcases List.mem_cons.mp hup with heq | hmem
      · subst heq
        exact hboot
      · exact haddr up2 hmem

end tunneldns

namespace tunneldns

/-- C6: the client that `NewUpstreamHTTPS` builds for
`https://dns.example/dns-query` has the timeout `time.Second * defaultTimeout`,
which is 5,000,000,000,000,000,000 nanoseconds: a value that fits the `int64`
of `time.Duration` and is not the 5,000,000,000 nanoseconds of five seconds. -/
theorem NewUpstreamHTTPS_timeout_value :
    ∃ u : UpstreamHTTPS,
      NewUpstreamHTTPS (sampleWorld 200 [] true true) "https://dns.example/dns-query"
        DefaultBootstrapAddress = Except.ok u ∧
      u.client.Timeout = 5000000000000000000 ∧
      u.client.Timeout < 2 ^ 63 ∧
      u.client.Timeout ≠ 5 * time.Second ∧
      defaultTimeout = 5000000000 := by
  refine ⟨_, NewUpstreamHTTPS_ok _ _ _ sampleURL (by simp [sampleWorld]), ?_, ?_, ?_, ?_⟩ <;>
    simp [defaultTimeout, time.Second]

/-- C8: when some URL of the list does not parse, `CreateListener` returns no
listener and the parse error of the first such URL; it has handled the URLs
before it and that URL and no later one, has built no proxy plugin, has not
called `cache.New` or `dnsserver.NewServer`, and has bound no socket and
launched no service loop. -/
theorem CreateListener_bad_url (world : World) (address : String) (port : Nat)
    (upstreams : List String)
    (hbad : ∃ url ∈ upstreams, ∃ err, world.urlParse url = Except.error err) :
    ∃ (pre : List String) (bad : String) (post : List String) (err : GoError),
      upstreams = pre ++ bad :: post ∧
      (∀ url ∈ pre, ∃ u, world.urlParse url = Except.ok u) ∧
      world.urlParse bad = Except.error err ∧
      (CreateListener world address port upstreams).result = Except.error err ∧
      (CreateListener world address port upstreams).plugin = none ∧
      (CreateListener world address port upstreams).trace = addingEvents (pre ++ [bad]) ∧
      (∀ ev ∈ (CreateListener world address port upstreams).trace,
        ev ≠ NetEvent.cacheNew ∧ (∀ endpoint, ev ≠ NetEvent.newServer endpoint) ∧
        ev.isBind = false ∧ ev.isLaunch = false) := by
  rcases buildUpstreamList_error world upstreams [] hbad with
    ⟨pre, bad, post, err, hsplit, hpre, hbadurl, hbuild⟩
  have htrace : (CreateListener world address port upstreams).trace =
      addingEvents (pre ++ [bad]) := by
    simp [CreateListener, hbuild]
  refine ⟨pre, bad, post, err, hsplit, hpre, hbadurl, ?_, ?_, htrace, ?_⟩
  · simp [CreateListener, hbuild]
  · simp [CreateListener, hbuild]
  · rw [htrace]
    generalize pre ++ [bad] = urls
    induction urls with
    | nil => simp [addingEvents]
    | cons url rest ih =>
      intro ev hev
      simp only [addingEvents, List.mem_cons] at hev
      rcases hev with h | h | h
      · subst h
        simp [NetEvent.isBind, NetEvent.isLaunch]
      · subst h
        simp [NetEvent.isBind, NetEvent.isLaunch]
      · exact ih ev h

/-- Witness for C8: the second of three URLs does not parse. -/
theorem CreateListener_bad_url_witness :
    ∃ (pre : List String) (bad : String) (post : List String) (err : GoError),
      ["https://dns.example/dns-query", "%zz", "https://dns.example/dns-query"] =
        pre ++ bad :: post ∧
      (∀ url ∈ pre, ∃ u, (sampleWorld 200 [] true true).urlParse url = Except.ok u) ∧
      (sampleWorld 200 [] true true).urlParse bad = Except.error err ∧
      (CreateListener (sampleWorld 200 [] true true) "127.0.0.1" 53
        ["https://dns.example/dns-query", "%zz", "https://dns.example/dns-query"]).result =
        Except.error err ∧
      (CreateListener (sampleWorld 200 [] true true) "127.0.0.1" 53
        ["https://dns.example/dns-query", "%zz", "https://dns.example/dns-query"]).plugin =
        none ∧
      (CreateListener (sampleWorld 200 [] true true) "127.0.0.1" 53
        ["https://dns.example/dns-query", "%zz", "https://dns.example/dns-query"]).trace =
        addingEvents (pre ++ [bad]) ∧
      (∀ ev ∈ (CreateListener (sampleWorld 200 [] true true) "127.0.0.1" 53
          ["https://dns.example/dns-query", "%zz", "https://dns.example/dns-query"]).trace,
        ev ≠ NetEvent.cacheNew ∧ (∀ endpoint, ev ≠ NetEvent.newServer endpoint) ∧
        ev.isBind = false ∧ ev.isLaunch = false) :=
  CreateListener_bad_url (sampleWorld 200 [] true true) "127.0.0.1" 53
    ["https://dns.example/dns-query", "%zz", "https://dns.example/dns-query"]
    ⟨"%zz", by simp, ⟨"parse error"⟩, by simp [sampleWorld]⟩

/-- C9: when every URL of the list parses, the chain that `CreateListener`
gives to `ProxyPlugin` has as many upstreams as there are URLs and the
endpoint of its `i`-th upstream is the parsed `i`-th URL; each upstream
carries the default bootstrap addresses. -/
theorem CreateListener_chain_order (world : World) (address : String) (port : Nat)
    (upstreams : List String)
    (hall : ∀ url ∈ upstreams, ∃ u, world.urlParse url = Except.ok u) :
    ∃ p : ProxyPlugin UpstreamHTTPS,
      (CreateListener world address port upstreams).plugin = some p ∧
      p.Upstreams.length = upstreams.length ∧
      p.Upstreams.map (fun up => (Except.ok up.endpoint : Except GoError URL)) =
        upstreams.map world.urlParse ∧
      (∀ i : Nat,
        (p.Upstreams.get? i).map (fun up => (Except.ok up.endpoint : Except GoError URL)) =
          (upstreams.get? i).map world.urlParse) ∧
      (∀ up ∈ p.Upstreams, up.addresses = DefaultBootstrapAddress) := by
  rcases buildUpstreamList_ok world upstreams [] hall with ⟨built, hbuild, hmap, haddr⟩
  have hplugin : (CreateListener world address port upstreams).plugin =
      some { Upstreams := built } := by
    simp only [CreateListener, hbuild, List.nil_append]
    split <;> rfl
  refine ⟨{ Upstreams := built }, hplugin, ?_, hmap, ?_, haddr⟩
  · have hlen := congrArg List.length hmap
    simpa using hlen
  · intro i
    have hget := congrArg (fun l => l.get? i) hmap
    simpa using hget

/-- Witness for C9: four URLs that parse, with three different endpoints, in
an order of their own and with the first URL repeated at the end. The chain
has four upstreams whose endpoints are, position by position, the parsed
URLs: the repeated URL is there twice, first and last. -/
theorem CreateListener_chain_order_witness :
    ∃ p : ProxyPlugin UpstreamHTTPS,
      (CreateListener threeURLWorld "127.0.0.1" 53
        ["https://doh.example/q", "https://resolver.example:8443/dns",
          "https://dns.example/dns-query", "https://doh.example/q"]).plugin = some p ∧
      p.Upstreams.length = 4 ∧
      p.Upstreams.map (fun up => (Except.ok up.endpoint : Except GoError URL)) =
        [Except.ok dohURL, Except.ok resolverURL, Except.ok sampleURL, Except.ok dohURL] ∧
      (∀ up ∈ p.Upstreams, up.addresses = DefaultBootstrapAddress) := by
  obtain ⟨p, hplugin, hlen, hmap, _, haddr⟩ :=
    CreateListener_chain_order threeURLWorld "127.0.0.1" 53
      ["https://doh.example/q", "https://resolver.example:8443/dns",
        "https://dns.example/dns-query", "https://doh.example/q"]
      (by
        intro url hurl
        simp only [List.mem_cons, List.mem_singleton, List.not_mem_nil, or_false] at hurl
        rcases hurl with h | h | h | h <;> subst h
        · exact ⟨dohURL, by simp [threeURLWorld]⟩
        · exact ⟨resolverURL, by simp [threeURLWorld]⟩
        · exact ⟨sampleURL, by simp [threeURLWorld]⟩
        · exact ⟨dohURL, by simp [threeURLWorld]⟩)
  refine ⟨p, hplugin, by simpa using hlen, ?_, haddr⟩
  rw [hmap]
  simp [threeURLWorld]

/-! ## Listener start -/

/-- C10: when `ListenPacket` fails, `Start` returns that error, leaves the
listener and its wait-group counter as they were, and has made the log call
and the UDP bind and nothing else: no TCP bind, no service loop, no change of
the wait group. -/
theorem Start_udp_bind_fails (world : World) (l : Listener) (err : GoError)
    (hudp : world.ListenPacket l.server = Except.error err) :
    (l.Start world).1 = some err ∧
    (l.Start world).2.1 = l ∧
    (l.Start world).2.1.wg = l.wg ∧
    (l.Start world).2.2 = [NetEvent.logStarting l.server.Address, NetEvent.listenPacket] ∧
    NetEvent.listen ∉ (l.Start world).2.2 ∧
    (∀ ev ∈ (l.Start world).2.2, ev.isLaunch = false ∧ ∀ delta, ev ≠ NetEvent.wgAdd delta) := by
  have h : l.Start world =
      (some err, l, [NetEvent.logStarting l.server.Address, NetEvent.listenPacket]) := by
    simp [Listener.Start, hudp]
  rw [h]
  simp [NetEvent.isLaunch]

/-- Witness for C10: the UDP port is taken. -/
theorem Start_udp_bind_fails_witness :
    (Listener.Start (sampleWorld 200 [] false true)
      { server := { Address := "dns://127.0.0.1:53" }, wg := 0 }).1 =
      some ⟨"listen udp: address already in use"⟩ ∧
    (Listener.Start (sampleWorld 200 [] false true)
      { server := { Address := "dns://127.0.0.1:53" }, wg := 0 }).2.1 =
      { server := { Address := "dns://127.0.0.1:53" }, wg := 0 } :=
  have h := Start_udp_bind_fails (sampleWorld 200 [] false true)
    { server := { Address := "dns://127.0.0.1:53" }, wg := 0 }
    ⟨"listen udp: address already in use"⟩ rfl
  ⟨h.1, h.2.1⟩

end tunneldns

namespace tunneldns

lemma Start_cases (world : World) (l : Listener) :
    (∃ err, world.ListenPacket l.server = Except.error err ∧
      l.Start world =
        (some err, l, [NetEvent.logStarting l.server.Address, NetEvent.listenPacket])) ∨
    (∃ udp err, world.ListenPacket l.server = Except.ok udp ∧
      world.Listen l.server = Except.error err ∧
      l.Start world =
        (some err, { l with wg := l.wg + 1 },
          [NetEvent.logStarting l.server.Address, NetEvent.listenPacket, NetEvent.wgAdd 1,
            NetEvent.goServePacket udp, NetEvent.listen])) ∨
    (∃ udp tcp, world.ListenPacket l.server = Except.ok udp ∧
      world.Listen l.server = Except.ok tcp ∧
      l.Start world =
        (none, { l with wg := l.wg + 1 + 1 },
          [NetEvent.logStarting l.server.Address, NetEvent.listenPacket, NetEvent.wgAdd 1,
            NetEvent.goServePacket udp, NetEvent.listen, NetEvent.wgAdd 1,
            NetEvent.goServe tcp])) := by
  rcases hudp : world.ListenPacket l.server with err | udp
  · left
    exact ⟨err, rfl, by simp [Listener.Start, hudp]⟩
  · right
    rcases htcp : world.Listen l.server with err | tcp
    · left
      exact ⟨udp, err, rfl, rfl, by simp [Listener.Start, hudp, htcp]⟩
    · right
      exact ⟨udp, tcp, rfl, rfl, by simp [Listener.Start, hudp, htcp]⟩

/-- C11: when the UDP bind succeeds and the TCP bind fails, `Start` returns
the TCP bind error, has launched one service loop, the UDP one, has not
called `server.Stop()`, and has added one to the wait-group counter. `Start`
returns nil exactly when both binds succeed, and then it has launched two
service loops and added two to the counter. -/
theorem Start_tcp_bind_fails (world : World) (l : Listener) (udp : PacketConn) (err : GoError)
    (hudp : world.ListenPacket l.server = Except.ok udp)
    (htcp : world.Listen l.server = Except.error err) :
    ((l.Start world).1 = some err ∧
      (l.Start world).2.1.wg = l.wg + 1 ∧
      (l.Start world).2.2.filter NetEvent.isLaunch = [NetEvent.goServePacket udp] ∧
      countLaunch (l.Start world).2.2 = 1 ∧
      (l.Start world).2.2.filter (fun ev => ev matches NetEvent.wgAdd _) = [NetEvent.wgAdd 1] ∧
      NetEvent.serverStop ∉ (l.Start world).2.2) ∧
    (∀ (world2 : World) (l2 : Listener),
      ((l2.Start world2).1 = none ↔
        ∃ udp2 tcp2, world2.ListenPacket l2.server = Except.ok udp2 ∧
          world2.Listen l2.server = Except.ok tcp2) ∧
      ((l2.Start world2).1 = none →
        countLaunch (l2.Start world2).2.2 = 2 ∧ (l2.Start world2).2.1.wg = l2.wg + 2)) := by
  constructor
  · have h : l.Start world =
        (some err, { l with wg := l.wg + 1 },
          [NetEvent.logStarting l.server.Address, NetEvent.listenPacket, NetEvent.wgAdd 1,
            NetEvent.goServePacket udp, NetEvent.listen]) := by
      simp [Listener.Start, hudp, htcp]
    rw [h]
    simp [countLaunch, NetEvent.isLaunch, List.filter]
  · intro world2 l2
    rcases Start_cases world2 l2 with ⟨e, h1, h⟩ | ⟨u, e, h1, h2, h⟩ | ⟨u, t, h1, h2, h⟩
    · simp [h, h1]
    · simp [h, h1, h2]
    · rw [h]
      simp [h1, h2, countLaunch, NetEvent.isLaunch, List.filter, Int.add_assoc]

/-- Witness for C11: the UDP port binds, the TCP port is taken. -/
theorem Start_tcp_bind_fails_witness :
    (sampleListener.Start (sampleWorld 200 [] true false)).1 =
      some ⟨"listen tcp: address already in use"⟩ ∧
    (sampleListener.Start (sampleWorld 200 [] true false)).2.1.wg = sampleListener.wg + 1 ∧
    countLaunch (sampleListener.Start (sampleWorld 200 [] true false)).2.2 = 1 :=
  have h := (Start_tcp_bind_fails (sampleWorld 200 [] true false) sampleListener { fd := 3 }
    ⟨"listen tcp: address already in use"⟩ rfl rfl).1
  ⟨h.1, h.2.1, h.2.2.2.1⟩

end tunneldns

namespace tunneldns

/-! ## Listener stop -/

lemma activeLoops_set (b : LoopPC) :
    ∀ (loops : List LoopPC) (i : Nat) (a : LoopPC), loops.get? i = some a →
      activeLoops (loops.set i b) + (if a = LoopPC.exited then 0 else 1) =
        activeLoops loops + (if b = LoopPC.exited then 0 else 1) := by
  intro loops
  induction loops with
  | nil => intro i a h; simp at h
  | cons pc rest ih =>
    intro i a h
    cases i with
    | zero =>
      simp at h
      subst h
      cases pc <;> cases b <;> simp [activeLoops]
    | succ i =>
      have hrest := ih i a (by simpa using h)
      cases pc <;> simp [activeLoops] <;> omega

lemma activeLoops_eq_zero :
    ∀ loops : List LoopPC, activeLoops loops = 0 → ∀ pc ∈ loops, pc = LoopPC.exited := by
  intro loops
  induction loops with
  | nil => intro _ pc hpc; simp at hpc
  | cons pc rest ih =>
    intro h pc2 hpc2
    cases pc with
    | exited =>
      rcases List.mem_cons.mp hpc2 with heq | hmem
      · exact heq
      · exact ih (by simpa [activeLoops] using h) pc2 hmem
    | serving => simp [activeLoops] at h
    | returned => simp [activeLoops] at h

lemma afterStart_wg (world : World) (l : Listener) :
    (Sys.afterStart world l).l.wg = l.wg + activeLoops (Sys.afterStart world l).loops ∧
    (Sys.afterStart world l).stop = StopPC.notCalled := by
  rcases Start_cases world l with ⟨e, _, h⟩ | ⟨u, e, _, _, h⟩ | ⟨u, t, _, _, h⟩ <;>
    simp [Sys.afterStart, h, launchedLoops, NetEvent.isLaunch, List.filter, activeLoops,
      Int.add_assoc]

lemma Stop_not_nil (world : World) (l : Listener) :
    (l.Stop world).1 ≠ StopPC.returned none := by
  unfold Listener.Stop
  rcases world.Stop l.server with _ | err <;> simp

lemma step_invariant (world : World) (s s2 : Sys) (a : Action)
    (hstep : s.step world a = some s2)
    (hwg : s.l.wg = activeLoops s.loops)
    (hstop : s.stop = StopPC.returned none → activeLoops s.loops = 0) :
    s2.l.wg = activeLoops s2.loops ∧
    (s2.stop = StopPC.returned none → activeLoops s2.loops = 0) := by
  cases a with
  | serveReturns i =>
    simp only [Sys.step] at hstep
    split at hstep
    · rename_i hget
      have hset := activeLoops_set LoopPC.returned s.loops i LoopPC.serving hget
      simp at hset
      cases hstep
      simp only
      exact ⟨by rw [hwg, hset], fun h => by rw [hset]; exact hstop h⟩
    · cases hstep
  | wgDone i =>
    simp only [Sys.step] at hstep
    split at hstep
    · rename_i hget
      have hset := activeLoops_set LoopPC.exited s.loops i LoopPC.returned hget
      simp at hset
      cases hstep
      simp only
      refine ⟨by rw [hwg]; omega, fun h => ?_⟩
      have := hstop h
      omega
    · cases hstep
  | stopCall =>
    simp only [Sys.step] at hstep
    split at hstep
    · cases hstep
      simp only
      exact ⟨hwg, fun h => absurd h (Stop_not_nil world s.l)⟩
    · cases hstep
  | waitReturns =>
    simp only [Sys.step] at hstep
    split at hstep
    · rename_i hguard
      cases hstep
      simp only
      refine ⟨hwg, fun _ => ?_⟩
      have h0 := hguard.2
      rw [hwg] at h0
      exact_mod_cast h0
    · cases hstep

lemma run_invariant (world : World) :
    ∀ (actions : List Action) (s s2 : Sys), s.run world actions = some s2 →
      s.l.wg = activeLoops s.loops →
      (s.stop = StopPC.returned none → activeLoops s.loops = 0) →
      s2.l.wg = activeLoops s2.loops ∧
      (s2.stop = StopPC.returned none → activeLoops s2.loops = 0) := by
  intro actions
  induction actions with
  | nil =>
    intro s s2 h hwg hstop
    simp only [Sys.run, Option.some.injEq] at h
    subst h
    exact ⟨hwg, hstop⟩
  | cons a rest ih =>
    intro s s2 h hwg hstop
    simp only [Sys.run] at h
    rcases hstep : s.step world a with _ | s1
    · simp [hstep] at h
    · simp only [hstep] at h
      have hinv := step_invariant world s s1 a hstep hwg hstop
      exact ih s1 s2 h hinv.1 hinv.2

/-- The barrier works on the path without error: from a listener whose counter
is zero, in every interleaving of the service loops with `Stop`, once `Stop`
has returned nil every launched loop has called `l.wg.Done()` after its serve
call returned, and the counter is zero. -/
lemma Stop_nil_after_loops_exit (world : World) (l : Listener) (hl : l.wg = 0)
    (actions : List Action) (s : Sys)
    (hrun : (Sys.afterStart world l).run world actions = some s)
    (hnil : s.stop = StopPC.returned none) :
    (∀ pc ∈ s.loops, pc = LoopPC.exited) ∧ s.l.wg = 0 := by
  have h0 := afterStart_wg world l
  have hinv := run_invariant world actions (Sys.afterStart world l) s hrun
    (by rw [h0.1, hl]; simp) (fun h => by rw [h0.2] at h; cases h)
  have hz := hinv.2 hnil
  exact ⟨activeLoops_eq_zero s.loops hz, by rw [hinv.1, hz]; rfl⟩

end tunneldns

namespace tunneldns

/-- C12: an execution in which `Stop` returns before the service loops have
exited. Both binds succeed, so two loops are launched and the counter is 2;
`server.Stop()` reports an error and `Stop` returns it while both loops are
still inside their serve calls and the counter is still 2. -/
theorem Stop_returns_while_loops_serve :
    ∃ s : Sys,
      (Sys.afterStart stopFailsWorld sampleListener).run stopFailsWorld [Action.stopCall] =
        some s ∧
      s.stop = StopPC.returned (some ⟨"dns: server not started"⟩) ∧
      s.loops = [LoopPC.serving, LoopPC.serving] ∧
      s.l.wg = 2 :=
  ⟨_, rfl, rfl, rfl, rfl⟩

/-- C13: when `server.Stop()` reports an error, `Stop` returns that error
after the one call of `server.Stop()`: it does not reach `l.wg.Wait()`. Here
the counter is 2 at that moment. -/
theorem Stop_error_skips_wait :
    (Sys.afterStart stopFailsWorld sampleListener).l.wg = 2 ∧
    (Sys.afterStart stopFailsWorld sampleListener).l.Stop stopFailsWorld =
      (StopPC.returned (some ⟨"dns: server not started"⟩), [NetEvent.serverStop]) ∧
    NetEvent.wgWait ∉
      ((Sys.afterStart stopFailsWorld sampleListener).l.Stop stopFailsWorld).2 := by
  refine ⟨rfl, rfl, ?_⟩
  have h : ((Sys.afterStart stopFailsWorld sampleListener).l.Stop stopFailsWorld).2 =
      [NetEvent.serverStop] := rfl
  rw [h]
  simp

end tunneldns

namespace tunneldns

/-! ## Run -/

lemma Run_start_fails (world : World) (proc : Process) (c : CliContext) (listener : Listener)
    (err : GoError)
    (hmetrics : proc.netListen "tcp" c.metrics = none)
    (hcreate : (CreateListener world c.address (c.port % 65536) c.upstream).result =
      Except.ok listener)
    (hstart : (listener.Start world).1 = some err)
    (hstop : world.Stop listener.server = none)
    (hexit : proc.loopsExit = true) :
    Run world proc c = RunOutcome.returned none := by
  have hserver : (listener.Start world).2.1.server = listener.server := by
    rcases Start_cases world listener with ⟨e, _, h⟩ | ⟨u, e, _, _, h⟩ | ⟨u, t, _, _, h⟩ <;>
      simp [h]
  simp [Run, hmetrics, hcreate, hstart, Listener.StopAndWait, Listener.Stop, hserver, hstop,
    hexit]

/-- C14: `Run` returns nil after a bind failure. The metrics listener binds,
the listener is created, `Start` fails with the bind error of the UDP socket
(or, in the second world, of the TCP socket), `server.Stop()` reports no
error, and `Run` returns the nil of `listener.Stop()`. -/
theorem Run_loses_bind_error :
    (∃ listener : Listener,
      (CreateListener (sampleWorld 200 [] false true) sampleContext.address
        (sampleContext.port % 65536) sampleContext.upstream).result = Except.ok listener ∧
      (listener.Start (sampleWorld 200 [] false true)).1 =
        some ⟨"listen udp: address already in use"⟩) ∧
    Run (sampleWorld 200 [] false true) sampleProcess sampleContext =
      RunOutcome.returned none ∧
    (∃ listener : Listener,
      (CreateListener (sampleWorld 200 [] true false) sampleContext.address
        (sampleContext.port % 65536) sampleContext.upstream).result = Except.ok listener ∧
      (listener.Start (sampleWorld 200 [] true false)).1 =
        some ⟨"listen tcp: address already in use"⟩) ∧
    Run (sampleWorld 200 [] true false) sampleProcess sampleContext =
      RunOutcome.returned none := by
  have hc1 : (CreateListener (sampleWorld 200 [] false true) sampleContext.address
      (sampleContext.port % 65536) sampleContext.upstream).result =
      Except.ok { server := { Address := "dns://127.0.0.1:53" }, wg := 0 } := by
    simp [CreateListener, buildUpstreamList, NewUpstreamHTTPS, sampleWorld, sampleContext]
    rfl
  have hc2 : (CreateListener (sampleWorld 200 [] true false) sampleContext.address
      (sampleContext.port % 65536) sampleContext.upstream).result =
      Except.ok { server := { Address := "dns://127.0.0.1:53" }, wg := 0 } := by
    simp [CreateListener, buildUpstreamList, NewUpstreamHTTPS, sampleWorld, sampleContext]
    rfl
  refine ⟨⟨_, hc1, rfl⟩, ?_, ⟨_, hc2, rfl⟩, ?_⟩
  · exact Run_start_fails _ _ _ _ _ rfl hc1 rfl rfl rfl
  · exact Run_start_fails _ _ _ _ _ rfl hc2 rfl rfl rfl

end tunneldns

namespace tunneldns

/-! ## Bootstrap addresses -/

lemma Exchange_congr (world : World) (u u2 : UpstreamHTTPS) (state : Request)
    (hclient : u2.client = u.client) (hendpoint : u2.endpoint = u.endpoint) :
    u2.Exchange world state = u.Exchange world state := by
  simp [UpstreamHTTPS.Exchange, UpstreamHTTPS.exchangeWireformat, hclient, hendpoint]

lemma Exchange_requests (world : World) (u : UpstreamHTTPS) (state : Request) :
    ∀ req ∈ requestsSent (u.Exchange world state).2,
      ∃ queryBuf, req = u.dohRequest queryBuf := by
  intro req hreq
  rcases Exchange_cases world u state with
    ⟨err, _, h⟩ | ⟨q, err, _, _, h⟩ | ⟨q, err, _, _, _, h⟩ | ⟨q, resp, _, _, _, _, h⟩ |
    ⟨q, resp, err, _, _, _, _, _, h⟩ | ⟨q, resp, buf, err, _, _, _, _, _, _, h⟩ |
    ⟨q, resp, buf, m, _, _, _, _, _, _, h⟩
  · simp [h, requestsSent] at hreq
  · simp [h, requestsSent] at hreq
  all_goals
    simp [h, requestsSent] at hreq
    exact ⟨q, hreq⟩

/-- C15, as the code has it: an upstream built by `NewUpstreamHTTPS` stores
the bootstrap list in `addresses` and `Exchange` never reads it. The result
and the calls of `Exchange` are the same for every bootstrap list, and every
request handed to the client has the endpoint URL as its URL, the host of
that URL as connection target and the endpoint hostname as `Host`. -/
theorem Exchange_ignores_bootstrap (world : World) (endpoint : String)
    (bootstrap : List String) (u : UpstreamHTTPS) (state : Request)
    (hnew : NewUpstreamHTTPS world endpoint bootstrap = Except.ok u) :
    u.addresses = bootstrap ∧
    (∀ (bootstrap2 : List String) (u2 : UpstreamHTTPS),
      NewUpstreamHTTPS world endpoint bootstrap2 = Except.ok u2 →
      u2.Exchange world state = u.Exchange world state) ∧
    (∀ req ∈ requestsSent (u.Exchange world state).2,
      req.URL = u.endpoint.String ∧
      connectionTarget world req = world.requestHost u.endpoint.String ∧
      req.Host = u.endpoint.Hostname) := by
  rcases hp : world.urlParse endpoint with err | parsed
  · rw [NewUpstreamHTTPS_error world endpoint bootstrap err hp] at hnew
    cases hnew
  · rw [NewUpstreamHTTPS_ok world endpoint bootstrap parsed hp] at hnew
    cases hnew
    refine ⟨rfl, ?_, ?_⟩
    · intro bootstrap2 u2 hnew2
      rw [NewUpstreamHTTPS_ok world endpoint bootstrap2 parsed hp] at hnew2
      cases hnew2
      exact Exchange_congr world _ _ state rfl rfl
    · intro req hreq
      rcases Exchange_requests world _ state req hreq with ⟨q, hq⟩
      subst hq
      exact ⟨rfl, rfl, rfl⟩

/-- Witness for C15 as the code has it: the upstream for
`https://dns.example/dns-query` with the default bootstrap list, in a world
where the hostname does not resolve. -/
theorem Exchange_ignores_bootstrap_witness :
    sampleBuiltUpstream.addresses = DefaultBootstrapAddress ∧
    (∀ (bootstrap2 : List String) (u2 : UpstreamHTTPS),
      NewUpstreamHTTPS unresolvedWorld "https://dns.example/dns-query" bootstrap2 =
        Except.ok u2 →
      u2.Exchange unresolvedWorld { W := sampleWriter, Req := sampleQuery } =
        sampleBuiltUpstream.Exchange unresolvedWorld
          { W := sampleWriter, Req := sampleQuery }) ∧
    (∀ req ∈ requestsSent (sampleBuiltUpstream.Exchange unresolvedWorld
        { W := sampleWriter, Req := sampleQuery }).2,
      req.URL = sampleBuiltUpstream.endpoint.String ∧
      connectionTarget unresolvedWorld req =
        unresolvedWorld.requestHost sampleBuiltUpstream.endpoint.String ∧
      req.Host = sampleBuiltUpstream.endpoint.Hostname) :=
  Exchange_ignores_bootstrap unresolvedWorld "https://dns.example/dns-query"
    DefaultBootstrapAddress sampleBuiltUpstream { W := sampleWriter, Req := sampleQuery }
    (NewUpstreamHTTPS_ok unresolvedWorld "https://dns.example/dns-query"
      DefaultBootstrapAddress sampleURL (by simp [unresolvedWorld, sampleWorld]))

/-- C15: an outbound request that does not go to a bootstrap address. The
upstream is built with the default bootstrap list and the hostname of its
endpoint does not resolve; `Exchange` hands the client one request, whose
connection target is the endpoint host `dns.example` and no address of the
list, and returns the lookup error of the client. -/
theorem Exchange_bootstrap_counterexample :
    ∃ u : UpstreamHTTPS,
      NewUpstreamHTTPS unresolvedWorld "https://dns.example/dns-query"
        DefaultBootstrapAddress = Except.ok u ∧
      u.addresses = DefaultBootstrapAddress ∧
      (u.Exchange unresolvedWorld { W := sampleWriter, Req := sampleQuery }).1 =
        (none, some ⟨"dial tcp: lookup dns.example: no such host"⟩) ∧
      ∃ req : HTTPRequest,
        requestsSent (u.Exchange unresolvedWorld { W := sampleWriter, Req := sampleQuery }).2 =
          [req] ∧
        connectionTarget unresolvedWorld req = "dns.example" ∧
        connectionTarget unresolvedWorld req ∉ u.addresses ∧
        req.Host = "dns.example" := by
  refine ⟨_, NewUpstreamHTTPS_ok unresolvedWorld "https://dns.example/dns-query"
    DefaultBootstrapAddress sampleURL (by simp [unresolvedWorld, sampleWorld]), rfl, rfl,
    _, rfl, rfl, ?_, rfl⟩
  simp [connectionTarget, unresolvedWorld, sampleWorld, DefaultBootstrapAddress]

end tunneldns

namespace tunneldns

/-! ## Outcomes of ServeDNS -/

lemma serveLoop_outcomes {U : Type} (exch : U → Request → Option Msg × Option GoError)
    (state : Request) :
    ∀ (ups : List U) (k : Nat) (reply0 : Option Msg) (err0 : Option GoError),
      ((writes (ProxyPlugin.serveLoop exch state ups k reply0 err0).2).length = 1 ∧
        (ProxyPlugin.serveLoop exch state ups k reply0 err0).1 = (0, none)) ∨
      (writes (ProxyPlugin.serveLoop exch state ups k reply0 err0).2 = [] ∧
        (ProxyPlugin.serveLoop exch state ups k reply0 err0).1.1 = dns.RcodeServerFailure ∧
        (ProxyPlugin.serveLoop exch state ups k reply0 err0).1.2 ≠ none) := by
  intro ups
  induction ups with
  | nil => intro k reply0 err0; right; simp [ProxyPlugin.serveLoop, writes]
  | cons u rest ih =>
    intro k reply0 err0
    rcases hx : exch u state with ⟨reply, _ | e⟩
    · left
      simp [ProxyPlugin.serveLoop, hx, writes]
    · rcases ih (k + 1) reply (some e) with h | h
      · left
        simpa [ProxyPlugin.serveLoop, hx, writes] using h
      · right
        simpa [ProxyPlugin.serveLoop, hx, writes] using h

/-- C16: every call of `ServeDNS` ends in exactly one of two ways. Either it
made one write to the response writer and returned `(0, nil)`, or it made no
write and returned `dns.RcodeServerFailure` with a non-nil error. It never
makes more than one write. -/
theorem ServeDNS_outcomes {U : Type} (exch : U → Request → Option Msg × Option GoError)
    (p : ProxyPlugin U) (w : ResponseWriter) (r : Msg) :
    (((writes (p.ServeDNS exch w r).2).length = 1 ∧ (p.ServeDNS exch w r).1 = (0, none)) ∨
      (writes (p.ServeDNS exch w r).2 = [] ∧
        (p.ServeDNS exch w r).1.1 = dns.RcodeServerFailure ∧
        (p.ServeDNS exch w r).1.2 ≠ none)) ∧
    ¬ (((writes (p.ServeDNS exch w r).2).length = 1 ∧ (p.ServeDNS exch w r).1 = (0, none)) ∧
      (writes (p.ServeDNS exch w r).2 = [] ∧
        (p.ServeDNS exch w r).1.1 = dns.RcodeServerFailure ∧
        (p.ServeDNS exch w r).1.2 ≠ none)) ∧
    (writes (p.ServeDNS exch w r).2).length ≤ 1 := by
  have h := serveLoop_outcomes exch { W := w, Req := r } p.Upstreams 0 none none
  refine ⟨h, ?_, ?_⟩
  · rintro ⟨⟨h1, _⟩, h2, _⟩
    rw [h2] at h1
    simp at h1
  · rcases h with h | h
    · exact le_of_eq h.1
    · have h0 : writes (p.ServeDNS exch w r).2 = [] := h.1
      simp [h0]

lemma serveLoop_exact_positions {U : Type}
    (exch : U → Request → Option Msg × Option GoError) (state : Request) :
    ∀ (ups : List U) (k : Nat) (reply0 : Option Msg) (err0 : Option GoError),
      exchangedPositions (ProxyPlugin.serveLoop exch state ups k reply0 err0).2 =
        (List.range (min (leadingFailures exch state ups + 1) ups.length)).map
          (fun j => k + j) := by
  intro ups
  induction ups with
  | nil =>
    intro k reply0 err0
    simp [ProxyPlugin.serveLoop, exchangedPositions, leadingFailures]
  | cons u rest ih =>
    intro k reply0 err0
    rcases hx : exch u state with ⟨reply, _ | e⟩
    · simp [ProxyPlugin.serveLoop, hx, exchangedPositions, leadingFailures, List.takeWhile,
        List.range_succ]
    · have hrest := ih (k + 1) reply (some e)
      have hlead : leadingFailures exch state (u :: rest) =
          leadingFailures exch state rest + 1 := by
        simp [leadingFailures, List.takeWhile, hx]
      have hmin : min (leadingFailures exch state rest + 1 + 1) (rest.length + 1) =
          min (leadingFailures exch state rest + 1) rest.length + 1 := by omega
      simp only [ProxyPlugin.serveLoop, hx, exchangedPositions, hrest, hlead,
        List.length_cons, hmin]
      rw [List.range_succ_eq_map (min (leadingFailures exch state rest + 1) rest.length)]
      simp [List.map_map, Function.comp_def, Nat.add_assoc, Nat.add_comm 1]

lemma serveLoopState_eq {U : Type} (exch : U → Request → Option Msg × Option GoError)
    (state : Request) (p : ProxyPlugin U) :
    ∀ (remaining idx : Nat) (reply0 : Option Msg) (err0 : Option GoError),
      idx + remaining = p.Upstreams.length →
      ProxyPlugin.serveLoopState exch state remaining idx p reply0 err0 =
        (ProxyPlugin.serveLoop exch state (p.Upstreams.drop idx) idx reply0 err0, p) := by
  intro remaining
  induction remaining with
  | zero =>
    intro idx reply0 err0 hlen
    have hdrop : p.Upstreams.drop idx = [] := List.drop_eq_nil_of_le (by omega)
    simp [ProxyPlugin.serveLoopState, hdrop, ProxyPlugin.serveLoop]
  | succ remaining ih =>
    intro idx reply0 err0 hlen
    have hidx : idx < p.Upstreams.length := by omega
    have hdrop : p.Upstreams.drop idx = p.Upstreams[idx] :: p.Upstreams.drop (idx + 1) :=
      List.drop_eq_getElem_cons hidx
    have hget : p.Upstreams[idx]? = some p.Upstreams[idx] := List.getElem?_eq_getElem hidx
    have hrest := fun reply e => ih (idx + 1) reply (some e) (by omega)
    rw [hdrop]
    simp only [ProxyPlugin.serveLoopState, hget, ProxyPlugin.serveLoop]
    rcases exch p.Upstreams[idx] state with ⟨reply, _ | e⟩
    · rfl
    · simp only [hrest reply e]

lemma ServeDNSState_eq {U : Type} (exch : U → Request → Option Msg × Option GoError)
    (p : ProxyPlugin U) (w : ResponseWriter) (r : Msg) :
    p.ServeDNSState exch w r = (p.ServeDNS exch w r, p) := by
  have h := serveLoopState_eq exch { W := w, Req := r } p p.Upstreams.length 0 none none
    (by simp)
  simpa [ProxyPlugin.ServeDNSState, ProxyPlugin.ServeDNS] using h

lemma serveSequence_eq {U : Type} (exch : U → Request → Option Msg × Option GoError)
    (p : ProxyPlugin U) :
    ∀ qs : List (ResponseWriter × Msg),
      ProxyPlugin.serveSequence exch p qs = (qs.map (fun q => p.ServeDNS exch q.1 q.2), p) := by
  intro qs
  induction qs with
  | nil => rfl
  | cons q rest ih => simp [ProxyPlugin.serveSequence, ServeDNSState_eq, ih]

/-- C17: `ServeDNS` keeps no state and leaves the chain as it is. With the
plugin threaded through the body as state, the plugin after a call is the
plugin before it, and so it is after any sequence of calls: the same
upstreams in the same order. Whatever queries were served before and however
they ended, a call gives the result and the calls of serving its query alone
on the chain as configured; the positions on which it calls `Exchange` are
exactly `0, 1, ..., n-1` where `n` counts the upstreams up to and including
the first one that succeeds for this query, or the whole chain when none
does; for a chain that is not empty the first of them is position 0. -/
theorem ServeDNS_stateless {U : Type} (exch : U → Request → Option Msg × Option GoError)
    (p : ProxyPlugin U) :
    (∀ (w : ResponseWriter) (r : Msg),
      (p.ServeDNSState exch w r).2 = p ∧
      (p.ServeDNSState exch w r).2.Upstreams = p.Upstreams ∧
      (p.ServeDNSState exch w r).1 = p.ServeDNS exch w r) ∧
    (∀ qs : List (ResponseWriter × Msg),
      (ProxyPlugin.serveSequence exch p qs).2 = p ∧
      (ProxyPlugin.serveSequence exch p qs).2.Upstreams = p.Upstreams ∧
      (ProxyPlugin.serveSequence exch p qs).1 = qs.map (fun q => p.ServeDNS exch q.1 q.2)) ∧
    (∀ (earlier : List (ResponseWriter × Msg)) (w : ResponseWriter) (r : Msg),
      (ProxyPlugin.serveSequence exch p (earlier ++ [(w, r)])).1.getLast? =
        some (p.ServeDNS exch w r) ∧
      exchangedPositions (p.ServeDNS exch w r).2 =
        List.range
          (min (leadingFailures exch { W := w, Req := r } p.Upstreams + 1)
            p.Upstreams.length) ∧
      (p.Upstreams ≠ [] →
        (exchangedPositions (p.ServeDNS exch w r).2).head? = some 0)) := by
  have hpos : ∀ (w : ResponseWriter) (r : Msg),
      exchangedPositions (p.ServeDNS exch w r).2 =
        List.range
          (min (leadingFailures exch { W := w, Req := r } p.Upstreams + 1)
            p.Upstreams.length) := by
    intro w r
    have h := serveLoop_exact_positions exch { W := w, Req := r } p.Upstreams 0 none none
    simpa [ProxyPlugin.ServeDNS] using h
  refine ⟨?_, ?_, ?_⟩
  · intro w r
    rw [ServeDNSState_eq]
    exact ⟨rfl, rfl, rfl⟩
  · intro qs
    rw [serveSequence_eq]
    exact ⟨rfl, rfl, rfl⟩
  · intro earlier w r
    refine ⟨?_, hpos w r, ?_⟩
    · rw [serveSequence_eq]
      simp
    · intro hne
      rw [hpos w r]
      have hlen : 0 < p.Upstreams.length := List.length_pos.mpr hne
      obtain ⟨n, hn⟩ : ∃ n, min (leadingFailures exch { W := w, Req := r } p.Upstreams + 1)
          p.Upstreams.length = n + 1 := ⟨_, (Nat.succ_pred_eq_of_pos (by omega)).symm⟩
      rw [hn, List.range_succ_eq_map]
      rfl

/-- Instance of C17: a chain of two upstreams of which the first answers only
queries with a transaction ID of at least 100. Two queries with ID 7 make
the first upstream fail and are answered by the second; the next query, with
ID `0x1234`, is asked of the first upstream again and answered by it; a last
query with ID 7 walks both positions again. After the four calls the chain
is as it was. -/
theorem ServeDNS_stateless_witness :
    (ProxyPlugin.serveSequence thresholdExchange { Upstreams := [100, 0] }
      [(sampleWriter, smallQuery), (sampleWriter, smallQuery), (sampleWriter, sampleQuery),
        (sampleWriter, smallQuery)]).1.map (fun res => exchangedPositions res.2) =
      [[0, 1], [0, 1], [0], [0, 1]] ∧
    (ProxyPlugin.serveSequence thresholdExchange { Upstreams := [100, 0] }
      [(sampleWriter, smallQuery), (sampleWriter, smallQuery), (sampleWriter, sampleQuery),
        (sampleWriter, smallQuery)]).2.Upstreams = [100, 0] := by
  have h := (ServeDNS_stateless thresholdExchange { Upstreams := [100, 0] }).2.1
    [(sampleWriter, smallQuery), (sampleWriter, smallQuery), (sampleWriter, sampleQuery),
      (sampleWriter, smallQuery)]
  refine ⟨?_, h.2.1⟩
  rw [h.2.2]
  decide

end tunneldns

namespace tunneldns

/-! ## Construction binds nothing -/

lemma buildUpstreamList_no_bind (world : World) :
    ∀ (upstreams : List String) (acc : List UpstreamHTTPS),
      ∀ ev ∈ (buildUpstreamList world upstreams acc).2,
        ev.isBind = false ∧ ev.isLaunch = false := by
  intro upstreams
  induction upstreams with
  | nil => intro acc ev hev; simp [buildUpstreamList] at hev
  | cons url rest ih =>
    intro acc ev hev
    rcases hnew : NewUpstreamHTTPS world url DefaultBootstrapAddress with err | up
    · simp only [buildUpstreamList, hnew, List.mem_cons, List.mem_singleton] at hev
      rcases hev with h | h | h
      · subst h; simp [NetEvent.isBind, NetEvent.isLaunch]
      · subst h; simp [NetEvent.isBind, NetEvent.isLaunch]
      · simp at h
    · simp only [buildUpstreamList, hnew, List.mem_cons] at hev
      rcases hev with h | h | h
      · subst h; simp [NetEvent.isBind, NetEvent.isLaunch]
      · subst h; simp [NetEvent.isBind, NetEvent.isLaunch]
      · exact ih _ ev h

lemma CreateListener_no_bind (world : World) (address : String) (port : Nat)
    (upstreams : List String) :
    ∀ ev ∈ (CreateListener world address port upstreams).trace,
      ev.isBind = false ∧ ev.isLaunch = false := by
  intro ev hev
  have hbuild := buildUpstreamList_no_bind world upstreams []
  rcases hb : buildUpstreamList world upstreams [] with ⟨res, tr⟩
  rw [hb] at hbuild
  rcases res with err | built
  · simp only [CreateListener, hb] at hev
    exact hbuild ev hev
  · have htrace : (CreateListener world address port upstreams).trace =
        tr ++ [NetEvent.cacheNew,
          NetEvent.newServer ("dns://" ++ address ++ ":" ++ toString port)] := by
      simp only [CreateListener, hb]
      split <;> rfl
    rw [htrace] at hev
    rcases List.mem_append.mp hev with h | h
    · exact hbuild ev h
    · simp only [List.mem_cons, List.mem_singleton] at h
      rcases h with h | h | h
      · subst h; simp [NetEvent.isBind, NetEvent.isLaunch]
      · subst h; simp [NetEvent.isBind, NetEvent.isLaunch]
      · simp at h

lemma countBind_eq_zero (tr : List NetEvent) (h : ∀ ev ∈ tr, ev.isBind = false) :
    countBind tr = 0 := by
  simp only [countBind, List.length_eq_zero, List.filter_eq_nil_iff]
  intro ev hev
  simp [h ev hev]

lemma countLaunch_eq_zero (tr : List NetEvent) (h : ∀ ev ∈ tr, ev.isLaunch = false) :
    countLaunch tr = 0 := by
  simp only [countLaunch, List.length_eq_zero, List.filter_eq_nil_iff]
  intro ev hev
  simp [h ev hev]

/-- C18: on every path `CreateListener` makes no `ListenPacket` or `Listen`
call and launches no service loop; the calls of two constructions with the
same configuration, one after the other, contain no bind and no launch
either. -/
theorem CreateListener_binds_nothing (world : World) (address : String) (port : Nat)
    (upstreams : List String) :
    (∀ ev ∈ (CreateListener world address port upstreams).trace,
      ev ≠ NetEvent.listenPacket ∧ ev ≠ NetEvent.listen ∧ ev.isLaunch = false) ∧
    countBind (CreateListener world address port upstreams).trace = 0 ∧
    countLaunch (CreateListener world address port upstreams).trace = 0 ∧
    countBind ((CreateListener world address port upstreams).trace ++
      (CreateListener world address port upstreams).trace) = 0 ∧
    countLaunch ((CreateListener world address port upstreams).trace ++
      (CreateListener world address port upstreams).trace) = 0 := by
  have h := CreateListener_no_bind world address port upstreams
  refine ⟨?_, countBind_eq_zero _ (fun ev hev => (h ev hev).1),
    countLaunch_eq_zero _ (fun ev hev => (h ev hev).2), ?_, ?_⟩
  · intro ev hev
    have hb := (h ev hev).1
    refine ⟨?_, ?_, (h ev hev).2⟩
    · intro heq; subst heq; simp [NetEvent.isBind] at hb
    · intro heq; subst heq; simp [NetEvent.isBind] at hb
  · apply countBind_eq_zero
    intro ev hev
    rcases List.mem_append.mp hev with h1 | h1 <;> exact (h ev h1).1
  · apply countLaunch_eq_zero
    intro ev hev
    rcases List.mem_append.mp hev with h1 | h1 <;> exact (h ev h1).2

/-! ## Start has no guard -/

/-- C19, as the code has it: the listener records no lifecycle state and
`Start` has no guard. Every call of `Start` calls `ListenPacket`; its
returned error and its calls are the same whatever the wait-group counter of
the listener is, so also on a listener that is running or has been stopped;
and when both binds succeed it launches two service loops and adds two to
the counter. -/
theorem Start_has_no_guard (world : World) (l : Listener) :
    NetEvent.listenPacket ∈ (l.Start world).2.2 ∧
    1 ≤ countBind (l.Start world).2.2 ∧
    (∀ n : Int,
      (Listener.Start world { l with wg := n }).1 = (l.Start world).1 ∧
      (Listener.Start world { l with wg := n }).2.2 = (l.Start world).2.2) ∧
    (∀ (udp : PacketConn) (tcp : NetListener),
      world.ListenPacket l.server = Except.ok udp →
      world.Listen l.server = Except.ok tcp →
      countBind (l.Start world).2.2 = 2 ∧ countLaunch (l.Start world).2.2 = 2 ∧
        (l.Start world).2.1.wg = l.wg + 2) := by
  refine ⟨?_, ?_, ?_, ?_⟩
  · rcases Start_cases world l with ⟨e, _, h⟩ | ⟨u, e, _, _, h⟩ | ⟨u, t, _, _, h⟩ <;>
      simp [h]
  · rcases Start_cases world l with ⟨e, _, h⟩ | ⟨u, e, _, _, h⟩ | ⟨u, t, _, _, h⟩ <;>
      simp [h, countBind, NetEvent.isBind, List.filter]
  · intro n
    rcases hudp : world.ListenPacket l.server with err | udp
    · simp [Listener.Start, hudp]
    · rcases htcp : world.Listen l.server with err | tcp <;>
        simp [Listener.Start, hudp, htcp]
  · intro udp tcp hudp htcp
    simp [Listener.Start, hudp, htcp, countBind, countLaunch, NetEvent.isBind,
      NetEvent.isLaunch, List.filter, Int.add_assoc]

/-- C19: `Start` on a listener that is running, and on one that has been
stopped, binds and launches again. After a first `Start` the listener runs
two loops and its counter is 2; a second `Start` makes two binds, launches
two loops and brings the counter to 4. After `Stop` has returned nil the
counter is 0; another `Start` makes two binds and launches two loops. -/
theorem Start_again_counterexample :
    (sampleListener.Start (sampleWorld 200 [] true true)).1 = none ∧
    (sampleListener.Start (sampleWorld 200 [] true true)).2.1.wg = 2 ∧
    countBind (Listener.Start (sampleWorld 200 [] true true)
      (sampleListener.Start (sampleWorld 200 [] true true)).2.1).2.2 = 2 ∧
    countLaunch (Listener.Start (sampleWorld 200 [] true true)
      (sampleListener.Start (sampleWorld 200 [] true true)).2.1).2.2 = 2 ∧
    (Listener.Start (sampleWorld 200 [] true true)
      (sampleListener.Start (sampleWorld 200 [] true true)).2.1).2.1.wg = 4 ∧
    ∃ s : Sys,
      (Sys.afterStart (sampleWorld 200 [] true true) sampleListener).run
        (sampleWorld 200 [] true true)
        [Action.stopCall, Action.serveReturns 0, Action.wgDone 0, Action.serveReturns 1,
          Action.wgDone 1, Action.waitReturns] = some s ∧
      s.stop = StopPC.returned none ∧
      s.loops = [LoopPC.exited, LoopPC.exited] ∧
      countBind (s.l.Start (sampleWorld 200 [] true true)).2.2 = 2 ∧
      countLaunch (s.l.Start (sampleWorld 200 [] true true)).2.2 = 2 :=
  ⟨rfl, rfl, rfl, rfl, rfl, _, rfl, rfl, rfl, rfl, rfl⟩

end tunneldns

namespace tunnelrpc

/-! ## ExistingTunnelPolicy -/

/-- C20: `ExistingTunnelPolicy.String` and `ExistingTunnelPolicyFromString`
are inverse on the three named values and the three names; every other
string maps to the zero value, which is `ignore`, and every other number to
the empty string. -/
theorem ExistingTunnelPolicy_String_FromString :
    (∀ c : ExistingTunnelPolicy,
      c = ExistingTunnelPolicy_ignore ∨ c = ExistingTunnelPolicy_disconnect ∨
        c = ExistingTunnelPolicy_balance →
      ExistingTunnelPolicyFromString (ExistingTunnelPolicy.String c) = c) ∧
    (∀ s : String, s = "ignore" ∨ s = "disconnect" ∨ s = "balance" →
      ExistingTunnelPolicy.String (ExistingTunnelPolicyFromString s) = s) ∧
    (∀ s : String, s ≠ "ignore" → s ≠ "disconnect" → s ≠ "balance" →
      ExistingTunnelPolicyFromString s = 0 ∧
      ExistingTunnelPolicyFromString s = ExistingTunnelPolicy_ignore) ∧
    (∀ c : ExistingTunnelPolicy,
      c ≠ ExistingTunnelPolicy_ignore → c ≠ ExistingTunnelPolicy_disconnect →
      c ≠ ExistingTunnelPolicy_balance → ExistingTunnelPolicy.String c = "") := by
  refine ⟨?_, ?_, ?_, ?_⟩
  · rintro c (h | h | h) <;> subst h <;> decide
  · rintro s (h | h | h) <;> subst h <;> decide
  · intro s h1 h2 h3
    simp [ExistingTunnelPolicyFromString, h1, h2, h3, ExistingTunnelPolicy_ignore]
  · intro c h1 h2 h3
    simp [ExistingTunnelPolicy.String, h1, h2, h3]

end tunnelrpc

namespace tunneldns

/-! ## Empty chain, failed writes -/

/-- C21: for an empty chain `ServeDNS` calls no `Exchange`, writes nothing and
returns `dns.RcodeServerFailure` with the error text
`unreachable backend: %!s(<nil>)`, the formatting of a nil error. For an
empty URL list the upstream loop of `CreateListener` returns the empty chain
without a call; `CreateListener` gives that chain to the proxy plugin and
returns a listener whenever `dnsserver.NewServer` returns a server, and an
error only when `dnsserver.NewServer` returns that error. -/
theorem ServeDNS_empty_chain {U : Type} (exch : U → Request → Option Msg × Option GoError)
    (w : ResponseWriter) (r : Msg) (world : World) (address : String) (port : Nat) :
    ProxyPlugin.ServeDNS exch { Upstreams := [] } w r =
      ((dns.RcodeServerFailure, some ⟨"unreachable backend: %!s(<nil>)"⟩), []) ∧
    exchangedPositions (ProxyPlugin.ServeDNS exch { Upstreams := [] } w r).2 = [] ∧
    writes (ProxyPlugin.ServeDNS exch { Upstreams := [] } w r).2 = [] ∧
    buildUpstreamList world [] [] = (Except.ok [], []) ∧
    (CreateListener world address port []).plugin = some { Upstreams := [] } ∧
    (∀ server : Server,
      world.NewServer ("dns://" ++ address ++ ":" ++ toString port)
        [createConfig address port
          (Handler.metrics (Handler.cache (Handler.proxy { Upstreams := [] })))] =
        Except.ok server →
      (CreateListener world address port []).result =
        Except.ok { server := server, wg := 0 }) ∧
    (∀ err : GoError,
      (CreateListener world address port []).result = Except.error err →
      world.NewServer ("dns://" ++ address ++ ":" ++ toString port)
        [createConfig address port
          (Handler.metrics (Handler.cache (Handler.proxy { Upstreams := [] })))] =
        Except.error err) := by
  have hserve : ProxyPlugin.ServeDNS exch { Upstreams := [] } w r =
      ((dns.RcodeServerFailure, some ⟨"unreachable backend: %!s(<nil>)"⟩), []) := by
    simp [ProxyPlugin.ServeDNS, ProxyPlugin.serveLoop, fmt.Errorf_s_s, fmt.verbS,
      errUnreachable]
  refine ⟨hserve, by rw [hserve]; rfl, by rw [hserve]; rfl, rfl, ?_, ?_, ?_⟩
  · simp only [CreateListener, buildUpstreamList]
    split <;> rfl
  · intro server hserver
    simp [CreateListener, buildUpstreamList, hserver]
  · intro err herr
    rcases hnew : world.NewServer ("dns://" ++ address ++ ":" ++ toString port)
        [createConfig address port
          (Handler.metrics (Handler.cache (Handler.proxy { Upstreams := [] })))] with
      e | server
    · simp [CreateListener, buildUpstreamList, hnew] at herr
      rw [herr]
    · simp [CreateListener, buildUpstreamList, hnew] at herr

/-- Instance of C21: an empty list of URLs on `127.0.0.1:53`. -/
theorem ServeDNS_empty_chain_witness :
    ProxyPlugin.ServeDNS sampleExchange { Upstreams := [] } sampleWriter sampleQuery =
      ((dns.RcodeServerFailure, some ⟨"unreachable backend: %!s(<nil>)"⟩), []) ∧
    (CreateListener (sampleWorld 200 [] true true) "127.0.0.1" 53 []).result =
      Except.ok { server := { Address := "dns://127.0.0.1:53" }, wg := 0 } :=
  have h := ServeDNS_empty_chain sampleExchange sampleWriter sampleQuery
    (sampleWorld 200 [] true true) "127.0.0.1" 53
  ⟨h.1, h.2.2.2.2.2.1 { Address := "dns://127.0.0.1:53" } rfl⟩

/-- C22: `ServeDNS` discards the result of `WriteMsg`. When upstream `i` is
the first whose `Exchange` returns no error and the write of its reply
fails, `ServeDNS` still returns `(0, nil)`, has written that reply once and
has called `Exchange` on the positions `0..i` and on no later one; the
result and the calls are those of a call whose write succeeds. -/
theorem ServeDNS_ignores_write_error {U : Type}
    (exch : U → Request → Option Msg × Option GoError)
    (p : ProxyPlugin U) (w : ResponseWriter) (r : Msg)
    (i : Nat) (hi : i < p.Upstreams.length) (werr : GoError)
    (hok : (exch (p.Upstreams.get ⟨i, hi⟩) { W := w, Req := r }).2 = none)
    (hbefore : ∀ u ∈ p.Upstreams.take i, (exch u { W := w, Req := r }).2 ≠ none)
    (_hwrite : w.WriteMsg (exch (p.Upstreams.get ⟨i, hi⟩) { W := w, Req := r }).1 =
      some werr) :
    (p.ServeDNS exch w r).1 = (0, none) ∧
    writes (p.ServeDNS exch w r).2 =
      [(exch (p.Upstreams.get ⟨i, hi⟩) { W := w, Req := r }).1] ∧
    exchangedPositions (p.ServeDNS exch w r).2 = List.range (i + 1) ∧
    (∀ w2 : ResponseWriter,
      (∀ u ∈ p.Upstreams, exch u { W := w2, Req := r } = exch u { W := w, Req := r }) →
      p.ServeDNS exch w2 r = p.ServeDNS exch w r) := by
  have h := serveLoop_first_success exch { W := w, Req := r } p.Upstreams 0 none none i hi hok
    hbefore
  have hserve : p.ServeDNS exch w r =
      ((0, none),
        (List.range (i + 1)).map ProxyEvent.exchange ++
          [ProxyEvent.writeMsg (exch (p.Upstreams.get ⟨i, hi⟩) { W := w, Req := r }).1]) := by
    simpa [ProxyPlugin.ServeDNS] using h
  have hwrites : ∀ (l : List Nat) (tail : List ProxyEvent),
      writes (l.map ProxyEvent.exchange ++ tail) = writes tail := by
    intro l tail
    induction l with
    | nil => rfl
    | cons x xs ih => simpa [writes] using ih
  have hpositions : ∀ (l : List Nat) (reply : Option Msg),
      exchangedPositions (l.map ProxyEvent.exchange ++ [ProxyEvent.writeMsg reply]) = l := by
    intro l reply
    induction l with
    | nil => rfl
    | cons x xs ih => simpa [exchangedPositions] using ih
  refine ⟨by rw [hserve], ?_, ?_, ?_⟩
  · rw [hserve, hwrites]
    rfl
  · rw [hserve, hpositions]
  · intro w2 hsame
    have hloop : ∀ (ups : List U) (k : Nat) (reply0 : Option Msg) (err0 : Option GoError),
        (∀ u ∈ ups, exch u { W := w2, Req := r } = exch u { W := w, Req := r }) →
        ProxyPlugin.serveLoop exch { W := w2, Req := r } ups k reply0 err0 =
          ProxyPlugin.serveLoop exch { W := w, Req := r } ups k reply0 err0 := by
      intro ups
      induction ups with
      | nil => intro k reply0 err0 _; rfl
      | cons u rest ih =>
        intro k reply0 err0 hall
        have hu := hall u (by simp)
        simp only [ProxyPlugin.serveLoop, hu]
        rcases exch u { W := w, Req := r } with ⟨reply, _ | e⟩
        · rfl
        · simp only
          rw [ih (k + 1) reply (some e) (fun v hv => hall v (by simp [hv]))]
    exact hloop p.Upstreams 0 none none hsame

/-- Witness for C22: the first upstream returns status 503, the second
answers, and the write of the answer fails. -/
theorem ServeDNS_ignores_write_error_witness :
    (ProxyPlugin.ServeDNS sampleExchange { Upstreams := [false, true, true] } failingWriter
      sampleQuery).1 = (0, none) ∧
    writes (ProxyPlugin.ServeDNS sampleExchange { Upstreams := [false, true, true] }
      failingWriter sampleQuery).2 = [some sampleAnswer] ∧
    exchangedPositions (ProxyPlugin.ServeDNS sampleExchange
      { Upstreams := [false, true, true] } failingWriter sampleQuery).2 = [0, 1] :=
  have h := ServeDNS_ignores_write_error sampleExchange { Upstreams := [false, true, true] }
    failingWriter sampleQuery 1 (by decide) ⟨"write: broken pipe"⟩ rfl (by decide) rfl
  ⟨h.1, h.2.1, h.2.2.1⟩

end tunneldns

namespace tunneldns

/-! ## Response body, answer fields -/

lemma exchangeWireformat_status_not_200 (world : World) (u : UpstreamHTTPS) (msg : Bytes)
    (resp : HTTPResponse)
    (hreq : world.newRequestErr "POST" u.endpoint.String = none)
    (hdo : world.Do u.client (u.dohRequest msg) = Except.ok resp)
    (hstatus : resp.StatusCode ≠ 200) :
    u.exchangeWireformat world msg =
      (Except.error ⟨"returned status code " ++ toString resp.StatusCode⟩,
        [HTTPEvent.clientDo (u.dohRequest msg)]) := by
  rw [exchangeWireformat_sent world u msg hreq, hdo]
  simp [hstatus]

/-- C23: a response whose body `exchangeWireformat` does not close. The client
returns a response with status 503; `exchangeWireformat` returns the error
`returned status code 503` and its only call is the `Do` of the client: it
neither reads nor closes the body. With status 200 it reads the body and
closes it. -/
theorem exchangeWireformat_leaves_body_open :
    sampleUpstream.exchangeWireformat (sampleWorld 503 [0, 7] true true) [18, 52] =
      (Except.error ⟨"returned status code 503"⟩,
        [HTTPEvent.clientDo (sampleUpstream.dohRequest [18, 52])]) ∧
    HTTPEvent.bodyClose ∉
      (sampleUpstream.exchangeWireformat (sampleWorld 503 [0, 7] true true) [18, 52]).2 ∧
    sampleUpstream.exchangeWireformat (sampleWorld 200 [0, 7] true true) [18, 52] =
      (Except.ok [0, 7],
        [HTTPEvent.clientDo (sampleUpstream.dohRequest [18, 52]), HTTPEvent.readAll,
          HTTPEvent.bodyClose]) := by
  have h : sampleUpstream.exchangeWireformat (sampleWorld 503 [0, 7] true true) [18, 52] =
      (Except.error ⟨"returned status code 503"⟩,
        [HTTPEvent.clientDo (sampleUpstream.dohRequest [18, 52])]) :=
    exchangeWireformat_status_not_200 (sampleWorld 503 [0, 7] true true) sampleUpstream
      [18, 52] { StatusCode := 503, Body := Except.ok [0, 7] } rfl rfl (by decide)
  refine ⟨h, ?_, rfl⟩
  rw [h]
  simp

/-- C24: on success the message that `Exchange` returns is the message
unpacked from the body with its `Id` replaced by the `Id` of the query: every
other header field, the compression flag and the question, answer, authority
and additional sections are those of the unpacked message. -/
theorem Exchange_changes_only_id (world : World) (u : UpstreamHTTPS) (state : Request)
    (queryBuf : Bytes) (resp : HTTPResponse) (buf : Bytes) (m : Msg)
    (hpack : world.Pack state.Req = Except.ok queryBuf)
    (hreq : world.newRequestErr "POST" u.endpoint.String = none)
    (hdo : world.Do u.client (u.dohRequest queryBuf) = Except.ok resp)
    (hstatus : resp.StatusCode = 200)
    (hbody : resp.Body = Except.ok buf)
    (hunpack : world.Unpack buf = Except.ok m) :
    ∃ reply : Msg, (u.Exchange world state).1 = (some reply, none) ∧
      reply = { m with Id := state.Req.Id } ∧
      { reply with Id := m.Id } = m ∧
      reply.Response = m.Response ∧ reply.Opcode = m.Opcode ∧
      reply.Authoritative = m.Authoritative ∧ reply.Truncated = m.Truncated ∧
      reply.RecursionDesired = m.RecursionDesired ∧
      reply.RecursionAvailable = m.RecursionAvailable ∧ reply.Zero = m.Zero ∧
      reply.AuthenticatedData = m.AuthenticatedData ∧
      reply.CheckingDisabled = m.CheckingDisabled ∧ reply.Rcode = m.Rcode ∧
      reply.Compress = m.Compress ∧ reply.Question = m.Question ∧
      reply.Answer = m.Answer ∧ reply.Ns = m.Ns ∧ reply.Extra = m.Extra :=
  ⟨{ m with Id := state.Req.Id },
    Exchange_success world u state queryBuf resp buf m hpack hreq hdo hstatus hbody hunpack,
    rfl, rfl, rfl, rfl, rfl, rfl, rfl, rfl, rfl, rfl, rfl, rfl, rfl, rfl, rfl, rfl, rfl⟩

/-- Witness for C24: the body of the status 200 response unpacks to
`sampleAnswer` with ID 7; the reply is `sampleAnswer` with ID `0x1234`. -/
theorem Exchange_changes_only_id_witness :
    ∃ reply : Msg,
      (sampleUpstream.Exchange (sampleWorld 200 [0, 7] true true)
        { W := sampleWriter, Req := sampleQuery }).1 = (some reply, none) ∧
      reply = { sampleAnswer with Id := 0x1234 } :=
  have ⟨reply, h1, h2, _⟩ := Exchange_changes_only_id (sampleWorld 200 [0, 7] true true)
    sampleUpstream { W := sampleWriter, Req := sampleQuery } [18, 52]
    { StatusCode := 200, Body := Except.ok [0, 7] } [0, 7] { sampleAnswer with Id := 7 }
    rfl rfl rfl rfl rfl rfl
  ⟨reply, h1, h2⟩

end tunneldns
